import Mathlib

/-! Verification development for the two Git helper scripts of this repository,
`git_mypush.py` (push orchestrator with large-file/LFS recovery) and
`git_mypull.py` (pull/sync orchestrator).

The scripts are sequential shell-out wrappers: every effect is the execution of
one `git` command line, an interactive prompt read from stdin, or (in large-file
recovery) one write to a temporary commit-message file.  We embed them shallowly:

* `World` is an oracle describing the environment: what every command line
  returns (`exec` for buffered `run_command`, `ptyExec` for the pseudo-terminal
  `run_command_with_progress`, whose stdout and stderr are the merged output),
  which filesystem paths exist (`fexists`, for `os.path.exists`), the OS login
  name (`os.getlogin`) and the name handed out by `tempfile.NamedTemporaryFile`.
* `Proc α` is the effect monad: a computation returns either `Except.error n`
  (the script called `sys.exit(n)`) or `Except.ok a`, together with the ordered
  trace of events (commands run, temp-file writes) it performed.  Console
  printing, `os.remove` of the temp file, and wall-clock reads are not modelled:
  they do not touch the repository.
* Interactive answers are passed explicitly as `Option String`; `none` models
  `EOFError` / `KeyboardInterrupt` raised by `input()`.
-/

/-! ## Python string primitives used by the scripts -/

/-- The whitespace characters removed by Python `str.strip()` (the ASCII set,
which covers everything the scripts ever strip). -/
def isPyWs (c : Char) : Bool :=
  c = ' ' || c = '\t' || c = '\n' || c = '\r' || c = '\x0b' || c = '\x0c'

/-- Python `s.strip()`: drop leading and trailing whitespace. -/
def pyStrip (s : String) : String :=
  ⟨((s.data.dropWhile isPyWs).reverse.dropWhile isPyWs).reverse⟩

/-- Python `s.lower()` (ASCII case folding; the scripts only compare against
the ASCII literals "n" and "yes"). -/
def pyLower (s : String) : String := ⟨s.data.map Char.toLower⟩

/-- Python `os.path.join(a, b)` for POSIX paths, as used on repo-relative paths. -/
def pyJoin (a b : String) : String :=
  if "/".data.isPrefixOf b.data then b else a ++ "/" ++ b

/-- Split a character list at every occurrence of `sep` (helper for Python
`s.split(sep)` with a one-character separator). -/
def splitChar (sep : Char) : List Char → List (List Char)
  | [] => [[]]
  | c :: cs =>
    match splitChar sep cs with
    | [] => [[]]
    | seg :: rest => if c = sep then [] :: seg :: rest else (c :: seg) :: rest

/-- Python `s.split('\n')`. -/
def pySplitNl (s : String) : List String := (splitChar '\n' s.data).map (fun l => ⟨l⟩)

/-- Everything after the first occurrence of `sep` (`none` when `sep` does not
occur). -/
def afterSub (sep : List Char) : List Char → Option (List Char)
  | [] => none
  | c :: cs => if sep.isPrefixOf (c :: cs) then some ((c :: cs).drop sep.length) else afterSub sep cs

/-- Everything up to the first occurrence of `sep` (the whole list when `sep`
does not occur). -/
def upToSub (sep : List Char) : List Char → List Char
  | [] => []
  | c :: cs => if sep.isPrefixOf (c :: cs) then [] else c :: upToSub sep cs

/-- Python `line.split(sep)[1]`: the text between the first and second
occurrence of `sep`.  Callers guard with `sep in line`, so the `none` case
(where Python would raise `IndexError`) is unreachable. -/
def pySplitIndex1 (line sep : String) : String :=
  match afterSub sep.data line.data with
  | some rest => ⟨upToSub sep.data rest⟩
  | none => ""

/-- One replacement pass of Python `s.replace(pat, repl)` (all non-overlapping
occurrences, left to right).  The `Nat` argument is reduction fuel, always
called with the length of the list, which bounds the number of steps. -/
def replaceFuel (pat repl : List Char) : Nat → List Char → List Char
  | _, [] => []
  | 0, l => l
  | n + 1, c :: cs =>
    if pat ≠ [] && pat.isPrefixOf (c :: cs) then
      repl ++ replaceFuel pat repl n ((c :: cs).drop pat.length)
    else c :: replaceFuel pat repl n cs

/-- Python `s.replace(pat, repl)`. -/
def pyReplace (s pat repl : String) : String :=
  ⟨replaceFuel pat.data repl.data s.data.length s.data⟩

/-- Python `s.endswith(suf)`. -/
def pyEndswith (s suf : String) : Bool := suf.data.isSuffixOf s.data

/-- Python `s.removesuffix(suf)`. -/
def pyRemovesuffix (s suf : String) : String :=
  if pyEndswith s suf then ⟨s.data.take (s.data.length - suf.data.length)⟩ else s

/-- Contiguous-sublist occurrence test (helper for Python's `pat in s`). -/
def hasSub (pat : List Char) : List Char → Bool
  | [] => pat.isPrefixOf ([] : List Char)
  | c :: cs => pat.isPrefixOf (c :: cs) || hasSub pat cs

/-- Python `pat in s` (substring containment). -/
def strContains (s pat : String) : Bool := hasSub pat.data s.data

/-- Insertion into a ≤-sorted list of strings (helper for `pySorted`). -/
def insertStr (x : String) : List String → List String
  | [] => [x]
  | y :: ys => if x ≤ y then x :: y :: ys else y :: insertStr x ys

/-- Python `sorted` on a list of strings (lexicographic). -/
def pySorted (l : List String) : List String := l.foldr insertStr []

/-! ## The effect model -/

/-- The result of one executed command line, as `run_command` returns it:
exit status plus captured stdout/stderr text. -/
structure CmdResult where
  returncode : Int
  stdout : String
  stderr : String
deriving DecidableEq

/-- One observable effect of a run. -/
inductive Event where
  /-- A command line was handed to the shell. -/
  | cmd (line : String)
  /-- The commit-message temporary file was written with this full content. -/
  | tmpWrite (content : String)
deriving DecidableEq

instance {e a : Type} [DecidableEq e] [DecidableEq a] : DecidableEq (Except e a) := fun x y =>
  match x, y with
  | .ok u, .ok v =>
    if h : u = v then .isTrue (by rw [h]) else .isFalse (by intro hh; cases hh; exact h rfl)
  | .error u, .error v =>
    if h : u = v then .isTrue (by rw [h]) else .isFalse (by intro hh; cases hh; exact h rfl)
  | .ok _, .error _ => .isFalse (by intro hh; cases hh)
  | .error _, .ok _ => .isFalse (by intro hh; cases hh)

/-- The environment oracle: results of commands, file existence, login name and
temp-file name.  It is fixed for the duration of one modelled run. -/
structure World where
  exec : String → CmdResult
  ptyExec : String → Int × String
  fexists : String → Bool
  login : String
  tmpName : String

/-- The effect monad of the scripts: given a `World`, produce either a normal
result or a `sys.exit` code, together with the ordered event trace. -/
def Proc (α : Type) : Type := World → Except Nat α × List Event

instance : Monad Proc where
  pure a := fun _ => (.ok a, [])
  bind x f := fun w =>
    match x w with
    | (.ok a, t) => ((f a w).1, t ++ (f a w).2)
    | (.error e, t) => (.error e, t)

/-- `run_command` (buffered mode): never raises; logs the command line. -/
def run_command (command : String) : Proc CmdResult :=
  fun w => (.ok (w.exec command), [.cmd command])

/-- `run_command_with_progress` (PTY streaming mode): the captured output is a
single merged stream, returned as both `stdout` and `stderr`. -/
def run_command_with_progress (command : String) : Proc CmdResult :=
  fun w =>
    let r := w.ptyExec command
    (.ok ⟨r.1, r.2, r.2⟩, [.cmd command])

/-- `sys.exit(n)`. -/
def sysExit {α : Type} (n : Nat) : Proc α := fun _ => (.error n, [])

/-- `os.path.exists(p)` (a pure filesystem query, not a command; not logged). -/
def pathExists (p : String) : Proc Bool := fun w => (.ok (w.fexists p), [])

/-- `os.getlogin()`. -/
def getLogin : Proc String := fun w => (.ok w.login, [])

/-- The name of the `tempfile.NamedTemporaryFile`. -/
def getTmpName : Proc String := fun w => (.ok w.tmpName, [])

/-- Writing the commit-message temporary file (both `tmp.write` calls fused,
since they write one file consecutively). -/
def writeTmp (content : String) : Proc Unit := fun _ => (.ok (), [.tmpWrite content])

/-! ## The regex of large-file identification

`handle_large_file_error` runs `re.search(r"error: File (.*?) is .* MB", push_error)`
and uses `group(1)`.  No element of the pattern can match a newline, so a match
always lies inside one line; `re.search` takes the leftmost start position, the
lazy group prefers the shortest group, and the trailing greedy `.*` does not
influence `group(1)`.  The functions below implement exactly that. -/

/-- Try the lazy group `(.*?)` at ever longer lengths: succeed at the first
position where the remainder starts with `" is "` and still contains `" MB"`. -/
def lazyGroup (acc : List Char) : List Char → Option (List Char)
  | [] => none
  | c :: cs =>
    if " is ".data.isPrefixOf (c :: cs) && hasSub " MB".data ((c :: cs).drop 4) then
      some acc
    else lazyGroup (acc ++ [c]) cs

/-- Match the whole pattern at one start position (inside one line). -/
def matchAt (l : List Char) : Option (List Char) :=
  if "error: File ".data.isPrefixOf l then lazyGroup [] (l.drop 12) else none

/-- Leftmost match inside one line. -/
def searchLine : List Char → Option (List Char)
  | [] => none
  | c :: cs =>
    match matchAt (c :: cs) with
    | some g => some g
    | none => searchLine cs

/-- First line with a match. -/
def searchLines : List (List Char) → Option (List Char)
  | [] => none
  | ln :: rest =>
    match searchLine ln with
    | some g => some g
    | none => searchLines rest

/-- `re.search(r"error: File (.*?) is .* MB", s)`, returning `group(1)` (or
`none` when the pattern does not occur). -/
def reSearchLargeFile (s : String) : Option String :=
  match searchLines (splitChar '\n' s.data) with
  | some g => some ⟨g⟩
  | none => none

/-! ## `git_mypush.py` -/

namespace mypush

/-- Parsed command-line flags of `mypush`. -/
structure Args where
  /-- `-d` or `--default`: auto-commit unstaged changes. -/
  default : Bool
  /-- `-c` or `--current`: push only the current branch. -/
  current : Bool
  /-- `-f` or `--force`: force-push the current branch. -/
  force : Bool
  /-- `-t` or `--tags`: push tags only. -/
  tags : Bool

/-- Operator answers at the three prompts of `handle_large_file_error`
(`none` = EOF / keyboard interrupt). -/
structure LfsAnswers where
  consent : Option String
  pathConfirm : Option String
  manualPath : Option String

/-- All operator answers of one `mypush` run. -/
structure Answers where
  resume : Option String
  forceConfirm : String
  lfs : LfsAnswers

/-- `check_git_repo` (git_mypush.py:146-151). -/
def check_git_repo : Proc Unit := do
  let result ← run_command "git rev-parse --git-dir"
  if result.returncode ≠ 0 then sysExit 1 else pure ()

/-- `get_current_branch` (git_mypush.py:196-199). -/
def get_current_branch : Proc String := do
  let result ← run_command "git branch --show-current"
  pure (pyStrip result.stdout)

/-- The `for file_path in tracked_files` loop of `check_lfs_files_status`
(git_mypush.py:60-71), threading the `gitattributes_modified` flag. -/
def lfsCleanLoop (git_root : String) : List String → Bool → Proc Bool
  | [], m => pure m
  | file_path :: rest, m =>
    if file_path = "" then lfsCleanLoop git_root rest m
    else do
      let ex ← pathExists (pyJoin git_root file_path)
      if ex then lfsCleanLoop git_root rest m
      else do
        let _ ← run_command ("git lfs untrack '" ++ file_path ++ "'")
        lfsCleanLoop git_root rest true

/-- `check_lfs_files_status` (git_mypush.py:36-78). -/
def check_lfs_files_status : Proc Unit := do
  let lfs_check_result ← run_command "git lfs --version"
  if lfs_check_result.returncode ≠ 0 then pure ()
  else do
    let lfs_files_result ← run_command "git lfs ls-files -n"
    if lfs_files_result.returncode ≠ 0 || pyStrip lfs_files_result.stdout = "" then pure ()
    else do
      let tracked_files := pySplitNl (pyStrip lfs_files_result.stdout)
      let git_root_result ← run_command "git rev-parse --show-toplevel"
      if git_root_result.returncode ≠ 0 then pure ()
      else do
        let git_root := pyStrip git_root_result.stdout
        let gitattributes_modified ← lfsCleanLoop git_root tracked_files false
        if gitattributes_modified then do
          let _ ← run_command "git add .gitattributes"
          pure ()
        else pure ()

/-- `check_interrupted_push` (git_mypush.py:153-194).  The block checking for
unpushed upstream commits can return from the function early (prompt accepted
→ `True`, EOF/interrupt → `False`); only when it falls through does the
function reach the fatal check of `interrupted_operations`.  `resumeAns` is
the operator's answer to the resume prompt. -/
def check_interrupted_push (resumeAns : Option String) : Proc Bool := do
  let gd ← run_command "git rev-parse --git-dir"
  let git_dir := pyStrip gd.stdout
  let hasMerge ← pathExists (pyJoin git_dir "MERGE_HEAD")
  let hasCherry ← pathExists (pyJoin git_dir "CHERRY_PICK_HEAD")
  let hasRebaseMerge ← pathExists (pyJoin git_dir "rebase-merge")
  let hasRebaseApply ← pathExists (pyJoin git_dir "rebase-apply")
  let interrupted_operations : List String :=
    (if hasMerge then ["merge"] else []) ++
    (if hasCherry then ["cherry-pick"] else []) ++
    (if hasRebaseMerge || hasRebaseApply then ["rebase"] else [])
  let current_branch ← get_current_branch
  let early ← (
    if current_branch ≠ "" then do
      let upstream_result ← run_command
        ("git rev-parse --abbrev-ref " ++ current_branch ++ "@\x7bupstream\x7d")
      if upstream_result.returncode = 0 then do
        let unpushed_result ← run_command
          ("git log " ++ current_branch ++ "@\x7bupstream\x7d.." ++ current_branch ++ " --oneline")
        if pyStrip unpushed_result.stdout ≠ "" then
          match resumeAns with
          | some choice =>
            if pyStrip (pyLower choice) ≠ "n" then pure (some true) else pure none
          | none => pure (some false)
        else pure none
      else pure none
    else pure (none : Option Bool))
  match early with
  | some b => pure b
  | none =>
    if interrupted_operations ≠ [] then sysExit 1
    else pure false

/-- `auto_commit_changes` (git_mypush.py:201-216). -/
def auto_commit_changes : Proc Bool := do
  let un ← run_command "git config user.name"
  let login ← getLogin
  let username := if pyStrip un.stdout ≠ "" then pyStrip un.stdout else login
  let ts ← run_command "date '+%Y-%m-%d %H:%M:%S'"
  let timestamp := pyStrip ts.stdout
  let commit_msg := "[default commit from mypush] user: " ++ username ++ " at " ++ timestamp
  let _ ← run_command "git add -A"
  let result ← run_command ("git commit -m \"" ++ commit_msg ++ "\"")
  if strContains result.stdout "nothing to commit" ||
     strContains result.stdout "no changes added to commit" then
    pure false
  else pure true

/-- The rewrite/recommit/retry phase of `handle_large_file_error`
(git_mypush.py:258-289), reached once a non-empty `large_file` path has been
identified: save the original commit message, soft-reset, install/track LFS,
stage, recommit via the temporary message file, and retry the push once. -/
def lfsRewriteAndRetry (branch large_file : String) : Proc Bool := do
  let msg_r ← run_command "git log -1 --pretty=%B"
  let original_commit_msg := pyStrip msg_r.stdout
  let _ ← run_command "git reset --soft HEAD~1"
  let _ ← run_command "git lfs install"
  let _ ← run_command ("git lfs track '" ++ large_file ++ "'")
  let _ ← run_command ("git add .gitattributes '" ++ large_file ++ "'")
  writeTmp (original_commit_msg ++ "\n\n[LFS Added]")
  let tmp_name ← getTmpName
  let _ ← run_command ("git commit -F " ++ tmp_name)
  let result ← run_command_with_progress ("git push origin " ++ branch)
  if result.returncode = 0 then pure true else pure false

/-- The exact event trace of `lfsRewriteAndRetry` (named so that several
theorems can speak about it). -/
def handleTrace (w : World) (branch large_file : String) : List Event :=
  [.cmd "git log -1 --pretty=%B",
   .cmd "git reset --soft HEAD~1",
   .cmd "git lfs install",
   .cmd ("git lfs track '" ++ large_file ++ "'"),
   .cmd ("git add .gitattributes '" ++ large_file ++ "'"),
   .tmpWrite (pyStrip ((w.exec "git log -1 --pretty=%B").stdout) ++ "\n\n[LFS Added]"),
   .cmd ("git commit -F " ++ w.tmpName),
   .cmd ("git push origin " ++ branch)]

/-- `handle_large_file_error` (git_mypush.py:218-289).  The two pure
`Except Bool String` steps model the early `return False` exits of the
identification phase (consent already granted at this point):
pattern extraction + path confirmation, then manual entry. -/
def handle_large_file_error (branch push_error : String) (ans : LfsAnswers) : Proc Bool :=
  match ans.consent with
  | none => pure false
  | some input_text =>
    if pyStrip (pyLower input_text) = "n" then pure false
    else
      let step1 : Except Bool String :=
        match reSearchLargeFile push_error with
        | some g =>
          let large_file := pyStrip g
          match ans.pathConfirm with
          | some confirm =>
            if pyStrip (pyLower confirm) = "n" then .ok "" else .ok large_file
          | none => .error false
        | none => .ok ""
      match step1 with
      | .error b => pure b
      | .ok lf1 =>
        let step2 : Except Bool String :=
          if lf1 = "" then
            match ans.manualPath with
            | some manual => .ok (pyStrip manual)
            | none => .error false
          else .ok lf1
        match step2 with
        | .error b => pure b
        | .ok large_file =>
          if large_file = "" then pure false
          else lfsRewriteAndRetry branch large_file

/-- The command line `push_branch` uses for a branch entry (with or without
the `:new` marker). -/
def pushCmdOf (branch : String) : String :=
  if pyEndswith branch ":new" then "git push -u origin " ++ pyRemovesuffix branch ":new"
  else "git push origin " ++ pyRemovesuffix branch ":new"

/-- `push_branch` (git_mypush.py:291-314). -/
def push_branch (branch : String) (ans : LfsAnswers) : Proc Bool := do
  let is_new := pyEndswith branch ":new"
  let branch_name := pyRemovesuffix branch ":new"
  let push_command :=
    if is_new then "git push -u origin " ++ branch_name
    else "git push origin " ++ branch_name
  let result ← run_command_with_progress push_command
  if result.returncode = 0 then pure true
  else
    let error_output := result.stderr ++ result.stdout
    if strContains error_output "GH001: Large files detected" then
      handle_large_file_error branch_name error_output ans
    else pure false

/-- The `for branch in ...` loop of `get_branches_to_push` (git_mypush.py:321-334). -/
def branchesLoop : List String → Proc (List String)
  | [] => pure []
  | branch :: rest =>
    if branch = "" then branchesLoop rest
    else do
      let upstream_result ← run_command
        ("git rev-parse --abbrev-ref " ++ branch ++ "@\x7bupstream\x7d")
      if upstream_result.returncode ≠ 0 then do
        let tail ← branchesLoop rest
        pure ((branch ++ ":new") :: tail)
      else do
        let local_ref ← run_command ("git rev-parse " ++ branch)
        let remote_ref ← run_command ("git rev-parse " ++ branch ++ "@\x7bupstream\x7d")
        let tail ← branchesLoop rest
        if pyStrip local_ref.stdout ≠ pyStrip remote_ref.stdout then
          pure (branch :: tail)
        else pure tail

/-- `get_branches_to_push` (git_mypush.py:316-336). -/
def get_branches_to_push : Proc (List String) := do
  let ref_result ← run_command "git for-each-ref --format='%(refname:short)' refs/heads/"
  branchesLoop (pySplitNl (pyStrip ref_result.stdout))

/-- The per-branch loop of `push_all_branches` (success/failure counters are
only printed, so they are not returned). -/
def pushLoop (ans : LfsAnswers) : List String → Proc Unit
  | [] => pure ()
  | branch :: rest => do
    let _ ← push_branch branch ans
    pushLoop ans rest

/-- `push_all_branches` (git_mypush.py:338-363). -/
def push_all_branches (ans : LfsAnswers) : Proc Unit := do
  let branches ← get_branches_to_push
  if branches = [] then pure ()
  else pushLoop ans branches

/-- `main` (git_mypush.py:365-429). -/
def mainPush (args : Args) (ans : Answers) : Proc Unit := do
  check_git_repo
  check_lfs_files_status
  let should_continue_push ← check_interrupted_push ans.resume
  if args.force then do
    let current_branch ← get_current_branch
    if pyLower ans.forceConfirm = "yes" then do
      let _ ← run_command_with_progress
        ("git push origin " ++ current_branch ++ " --force-with-lease")
      sysExit 0
    else sysExit 0
  else pure ()
  if args.tags then do
    let _ ← run_command_with_progress "git push origin --tags"
    sysExit 0
  else pure ()
  if !should_continue_push then
    if args.default then do
      let status_result ← run_command "git status --porcelain"
      if pyStrip status_result.stdout ≠ "" then do
        let _ ← auto_commit_changes
        pure ()
      else pure ()
    else do
      let status_result ← run_command "git status --porcelain"
      if pyStrip status_result.stdout ≠ "" then do
        let _ ← run_command "git status -s"
        sysExit 1
      else pure ()
  else pure ()
  if should_continue_push then
    if args.current then do
      let current_branch ← get_current_branch
      let _ ← push_branch current_branch ans.lfs
      pure ()
    else push_all_branches ans.lfs
  else
    if args.current then do
      let current_branch ← get_current_branch
      let _ ← push_branch current_branch ans.lfs
      pure ()
    else push_all_branches ans.lfs

end mypush

/-! ## `git_mypull.py` (the parts the claims depend on) -/

namespace mypull

/-- `get_current_branch` (git_mypull.py:43-46). -/
def get_current_branch : Proc String := do
  let result ← run_command "git branch --show-current"
  pure (pyStrip result.stdout)

/-- `get_remote_branches` (git_mypull.py:111-122). -/
def get_remote_branches : Proc (List String) := do
  let result ← run_command "git ls-remote --heads origin"
  if result.returncode ≠ 0 then pure []
  else
    pure (pySorted ((pySplitNl (pyStrip result.stdout)).filterMap (fun line =>
      if line ≠ "" && strContains line "refs/heads/" then
        some (pySplitIndex1 line "refs/heads/")
      else none)))

/-- `get_local_branches` (git_mypull.py:124-129). -/
def get_local_branches : Proc (List String) := do
  let result ← run_command "git branch --format='%(refname:short)'"
  if result.returncode ≠ 0 then pure []
  else
    pure (pySorted (((pySplitNl (pyStrip result.stdout)).map pyStrip).filter
      (fun b => b ≠ "")))

/-- The `for branch in new_branches` loop of `create_tracking_branches`
(git_mypull.py:152-156); failures are only printed. -/
def createLoop : List String → Proc Unit
  | [] => pure ()
  | branch :: rest => do
    let _ ← run_command ("git branch --track '" ++ branch ++ "' 'origin/" ++ branch ++ "'")
    createLoop rest

/-- `create_tracking_branches` (git_mypull.py:131-159).  `trackAns` is the
operator's answer to the batch-creation prompt (`none` = EOF/interrupt, which
skips creation). -/
def create_tracking_branches (trackAns : Option String) : Proc Unit := do
  let remote_branches ← get_remote_branches
  let local_branches ← get_local_branches
  let new_branches := remote_branches.filter (fun b => !local_branches.contains b)
  if new_branches = [] then pure ()
  else
    match trackAns with
    | some choice =>
      if pyStrip (pyLower choice) ≠ "n" then createLoop new_branches
      else pure ()
    | none => pure ()

/-- The per-branch body of the `for branch in local_branches` loop of
`sync_all_branches` (git_mypull.py:170-220).  Returns `none` when the branch is
skipped (`continue`), `some true` when it was recorded as updated and
`some false` when it was recorded as needing manual handling. -/
def syncOne (current_branch branch : String) : Proc (Option Bool) := do
  let remote_result ← run_command ("git config branch." ++ branch ++ ".remote")
  if remote_result.returncode ≠ 0 then pure none
  else do
    let remote := pyStrip remote_result.stdout
    let merge_result ← run_command ("git config branch." ++ branch ++ ".merge")
    if merge_result.returncode ≠ 0 then pure none
    else do
      let merge_ref := pyStrip merge_result.stdout
      let remote_branch := remote ++ "/" ++ pyReplace merge_ref "refs/heads/" ""
      let show_ref_result ← run_command
        ("git show-ref --verify --quiet refs/remotes/" ++ remote_branch)
      if show_ref_result.returncode ≠ 0 then pure none
      else do
        let local_commit_result ← run_command ("git rev-parse " ++ branch)
        let remote_commit_result ← run_command ("git rev-parse " ++ remote_branch)
        if local_commit_result.returncode ≠ 0 || remote_commit_result.returncode ≠ 0 then
          pure none
        else do
          let local_commit := pyStrip local_commit_result.stdout
          let remote_commit := pyStrip remote_commit_result.stdout
          if local_commit ≠ remote_commit then
            if branch = current_branch then do
              let pull_result ← run_command "git pull --ff-only"
              if pull_result.returncode = 0 then pure (some true) else pure (some false)
            else do
              let merge_base_result ← run_command
                ("git merge-base --is-ancestor " ++ branch ++ " " ++ remote_branch)
              if merge_base_result.returncode = 0 then do
                let update_result ← run_command
                  ("git update-ref refs/heads/" ++ branch ++ " " ++ remote_commit)
                if update_result.returncode = 0 then pure (some true) else pure (some false)
              else pure (some false)
          else pure none

/-- The loop of `sync_all_branches`, accumulating `updated_branches` and
`failed_branches` in loop order. -/
def syncLoop (current_branch : String) : List String → Proc (List String × List String)
  | [] => pure ([], [])
  | branch :: rest => do
    let res ← syncOne current_branch branch
    let (updated, failed) ← syncLoop current_branch rest
    match res with
    | none => pure (updated, failed)
    | some true => pure (branch :: updated, failed)
    | some false => pure (updated, branch :: failed)

/-- `sync_all_branches` (git_mypull.py:161-232).  The returned pair is
(`updated_branches`, `failed_branches`), i.e. the content of the final report
(the second list is the "needs manual handling" report). -/
def sync_all_branches : Proc (List String × List String) := do
  let current_branch ← get_current_branch
  let local_branches ← get_local_branches
  syncLoop current_branch local_branches

end mypull

/-! ## Concrete environments used by witnesses and counterexamples -/

/-- A trivial environment: every command succeeds with empty output. -/
def W0 : World where
  exec := fun _ => ⟨0, "", ""⟩
  ptyExec := fun _ => (0, "")
  fexists := fun _ => false
  login := "user"
  tmpName := "/tmp/msg0"

/-- Environment for the C2 witness: the last commit's message is
`"fix \"bug\"\nmore details"` (embedded double quote and newline), shown by
`git log -1 --pretty=%B` with git's terminating newline. -/
def WC2 : World where
  exec := fun c =>
    if c = "git log -1 --pretty=%B" then ⟨0, "fix \"bug\"\nmore details" ++ "\n", ""⟩
    else ⟨0, "", ""⟩
  ptyExec := fun _ => (0, "")
  fexists := fun _ => false
  login := "user"
  tmpName := "/tmp/msg2"

/-- Environment for the C2 counterexample: the last commit's message is
`"fix\n"` — it ends in a newline (such messages are creatable with
`git commit --cleanup=verbatim`), so `%B` shows `"fix\n\n"`. -/
def WC2x : World where
  exec := fun c =>
    if c = "git log -1 --pretty=%B" then ⟨0, "fix\n\n", ""⟩
    else ⟨0, "", ""⟩
  ptyExec := fun _ => (0, "")
  fexists := fun _ => false
  login := "user"
  tmpName := "/tmp/msg2x"

/-- What the `get_branches_to_push` loop contributes for one branch name: the
name with a `":new"` suffix when the branch has no configured upstream
(`git rev-parse --abbrev-ref <b>@{upstream}` fails), the bare name when it has
an upstream and the two commit ids differ, nothing when they are equal.
(Derived from the loop body git_mypush.py:321-334; the spec's "ahead of or
diverged from its upstream" is this commit-id inequality test.) -/
def branchPushClass (w : World) (branch : String) : Option String :=
  if branch = "" then none
  else if (w.exec ("git rev-parse --abbrev-ref " ++ branch ++ "@\x7bupstream\x7d")).returncode ≠ 0
    then some (branch ++ ":new")
  else if pyStrip ((w.exec ("git rev-parse " ++ branch)).stdout) ≠
      pyStrip ((w.exec ("git rev-parse " ++ branch ++ "@\x7bupstream\x7d")).stdout)
    then some branch
  else none

/-- Environment for the C9 witness: every push fails with a large-file
rejection. -/
def WC9 : World where
  exec := fun c =>
    if c = "git log -1 --pretty=%B" then ⟨0, "fix\n", ""⟩ else ⟨0, "", ""⟩
  ptyExec := fun _ =>
    (1, "remote: GH001: Large files detected\nremote: error: File big.bin is 600.00 MB")
  fexists := fun _ => false
  login := "user"
  tmpName := "/tmp/msg9"

/-- Environment for the C10 resume-prompt site: no in-progress operation
markers, current branch `main` with an upstream and one unpushed commit. -/
def W10r : World where
  exec := fun c =>
    if c = "git rev-parse --git-dir" then ⟨0, ".git\n", ""⟩
    else if c = "git branch --show-current" then ⟨0, "main\n", ""⟩
    else if c = "git rev-parse --abbrev-ref main@\x7bupstream\x7d" then ⟨0, "origin/main\n", ""⟩
    else if c = "git log main@\x7bupstream\x7d..main --oneline" then ⟨0, "abc123 fix\n", ""⟩
    else ⟨0, "", ""⟩
  ptyExec := fun _ => (0, "")
  fexists := fun _ => false
  login := "user"
  tmpName := "/tmp/msg10r"

/-- Environment for the C10 recovery-prompt sites: pushes succeed, the last
commit message is `msg`. -/
def W10c : World where
  exec := fun c =>
    if c = "git log -1 --pretty=%B" then ⟨0, "msg\n", ""⟩ else ⟨0, "", ""⟩
  ptyExec := fun _ => (0, "")
  fexists := fun _ => false
  login := "user"
  tmpName := "/tmp/msg10c"

/-- Environment for the C10 tracking-branch-creation site: remote branch `dev`
exists and has no local counterpart (local branches: only `main`). -/
def W10t : World where
  exec := fun c =>
    if c = "git ls-remote --heads origin" then
      ⟨0, "1111111111111111111111111111111111111111\trefs/heads/dev\n", ""⟩
    else if c = "git branch --format='%(refname:short)'" then ⟨0, "main\n", ""⟩
    else ⟨0, "", ""⟩
  ptyExec := fun _ => (0, "")
  fexists := fun _ => false
  login := "user"
  tmpName := "/tmp/msg10t"

/-- Environment for C1: a `MERGE_HEAD` marker is present (an in-progress
merge), and the current branch `main` has an upstream with one unpushed
commit, so the resume prompt is shown. -/
def Wc1 : World where
  exec := fun c =>
    if c = "git rev-parse --git-dir" then ⟨0, ".git\n", ""⟩
    else if c = "git branch --show-current" then ⟨0, "main\n", ""⟩
    else if c = "git rev-parse --abbrev-ref main@\x7bupstream\x7d" then ⟨0, "origin/main\n", ""⟩
    else if c = "git log main@\x7bupstream\x7d..main --oneline" then ⟨0, "abc123 fix\n", ""⟩
    else ⟨0, "", ""⟩
  ptyExec := fun _ => (0, "")
  fexists := fun p => p = ".git/MERGE_HEAD"
  login := "user"
  tmpName := "/tmp/msg1"

/-- Environment for C3/C4: a dirty working tree (`git status --porcelain` is
non-empty), no in-progress markers, Git LFS not installed, current branch
`main` with an upstream and one unpushed commit; pushes succeed. -/
def Wc3 : World where
  exec := fun c =>
    if c = "git rev-parse --git-dir" then ⟨0, ".git\n", ""⟩
    else if c = "git lfs --version" then ⟨1, "", ""⟩
    else if c = "git branch --show-current" then ⟨0, "main\n", ""⟩
    else if c = "git rev-parse --abbrev-ref main@\x7bupstream\x7d" then ⟨0, "origin/main\n", ""⟩
    else if c = "git log main@\x7bupstream\x7d..main --oneline" then ⟨0, "abc123 fix\n", ""⟩
    else if c = "git status --porcelain" then ⟨0, " M a.txt\n", ""⟩
    else if c = "git for-each-ref --format='%(refname:short)' refs/heads/" then
      ⟨0, "main\n", ""⟩
    else if c = "git rev-parse main" then ⟨0, "aaaa\n", ""⟩
    else if c = "git rev-parse main@\x7bupstream\x7d" then ⟨0, "bbbb\n", ""⟩
    else ⟨0, "", ""⟩
  ptyExec := fun _ => (0, "")
  fexists := fun _ => false
  login := "user"
  tmpName := "/tmp/msg3"

/-- Environment for the C7 counterexample: local branch `dev` has an upstream
`origin/dev`, its commit `aaaa` differs from the upstream's `bbbb`, and `aaaa`
is an ancestor of `bbbb` (`git merge-base --is-ancestor dev origin/dev` exits
0): the branch is strictly *behind* its upstream — neither ahead of it nor
diverged from it. -/
def WC7x : World where
  exec := fun c =>
    if c = "git for-each-ref --format='%(refname:short)' refs/heads/" then ⟨0, "dev\n", ""⟩
    else if c = "git rev-parse --abbrev-ref dev@\x7bupstream\x7d" then ⟨0, "origin/dev\n", ""⟩
    else if c = "git rev-parse dev" then ⟨0, "aaaa\n", ""⟩
    else if c = "git rev-parse dev@\x7bupstream\x7d" then ⟨0, "bbbb\n", ""⟩
    else if c = "git merge-base --is-ancestor dev origin/dev" then ⟨0, "", ""⟩
    else ⟨0, "", ""⟩
  ptyExec := fun _ => (0, "")
  fexists := fun _ => false
  login := "user"
  tmpName := "/tmp/msg7"

/-- Environment for the C6 witness: local branch `dev` (not current) is behind
its upstream `origin/dev` and is a strict ancestor of it, so it can be
fast-forwarded; `main` is the current branch and up to date. -/
def WC6 : World where
  exec := fun c =>
    if c = "git branch --show-current" then ⟨0, "main\n", ""⟩
    else if c = "git config branch.dev.remote" then ⟨0, "origin\n", ""⟩
    else if c = "git config branch.dev.merge" then ⟨0, "refs/heads/dev\n", ""⟩
    else if c = "git rev-parse dev" then ⟨0, "aaaa\n", ""⟩
    else if c = "git rev-parse origin/dev" then ⟨0, "bbbb\n", ""⟩
    else ⟨0, "", ""⟩
  ptyExec := fun _ => (0, "")
  fexists := fun _ => false
  login := "user"
  tmpName := "/tmp/msg6"

/-- The read-only / LFS-cleanup command shapes that `mypush.main` can issue
before reaching the commit gate: repository and LFS queries, the cleanup's
`git lfs untrack '<file>'` and `git add .gitattributes`, and the
interrupted-push queries.  (No `git commit`, no `git push`, no `git status`.) -/
def queryEvent (e : Event) : Prop :=
  e = .cmd "git rev-parse --git-dir" ∨
  e = .cmd "git lfs --version" ∨
  e = .cmd "git lfs ls-files -n" ∨
  e = .cmd "git rev-parse --show-toplevel" ∨
  (∃ f, e = .cmd ("git lfs untrack '" ++ f ++ "'")) ∨
  e = .cmd "git add .gitattributes" ∨
  e = .cmd "git branch --show-current" ∨
  (∃ b, e = .cmd ("git rev-parse --abbrev-ref " ++ b ++ "@\x7bupstream\x7d")) ∨
  (∃ b, e = .cmd ("git log " ++ b ++ "@\x7bupstream\x7d.." ++ b ++ " --oneline"))

/-- The read-only branch-enumeration commands run by `get_branches_to_push`:
the `for-each-ref` listing and the per-branch upstream / commit-id queries.
(No `git commit`, no `git push`, no `git status`.) -/
def selectEvent (e : Event) : Prop :=
  e = .cmd "git for-each-ref --format='%(refname:short)' refs/heads/" ∨
  (∃ b, e = .cmd ("git rev-parse --abbrev-ref " ++ b ++ "@\x7bupstream\x7d")) ∨
  (∃ b, e = .cmd ("git rev-parse " ++ b))

/-! ## Basic lemmas about the effect monad -/

@[simp] theorem pure_apply {α : Type} (a : α) (w : World) :
    (pure a : Proc α) w = (.ok a, []) := rfl

@[simp] theorem bind_apply {α β : Type} (x : Proc α) (f : α → Proc β) (w : World) :
    (x >>= f) w =
      (match x w with
       | (.ok a, t) => ((f a w).1, t ++ (f a w).2)
       | (.error e, t) => (.error e, t)) := rfl

@[simp] theorem run_command_apply (c : String) (w : World) :
    run_command c w = (.ok (w.exec c), [.cmd c]) := rfl

@[simp] theorem run_command_with_progress_apply (c : String) (w : World) :
    run_command_with_progress c w =
      (.ok ⟨(w.ptyExec c).1, (w.ptyExec c).2, (w.ptyExec c).2⟩, [.cmd c]) := rfl

@[simp] theorem sysExit_apply {α : Type} (n : Nat) (w : World) :
    (sysExit n : Proc α) w = (.error n, []) := rfl

@[simp] theorem pathExists_apply (p : String) (w : World) :
    pathExists p w = (.ok (w.fexists p), []) := rfl

@[simp] theorem getLogin_apply (w : World) : getLogin w = (.ok w.login, []) := rfl

@[simp] theorem getTmpName_apply (w : World) : getTmpName w = (.ok w.tmpName, []) := rfl

@[simp] theorem writeTmp_apply (content : String) (w : World) :
    writeTmp content w = (.ok (), [.tmpWrite content]) := rfl

theorem bind_ok {α β : Type} {x : Proc α} {f : α → Proc β} {w : World} {a : α}
    {t : List Event} (h : x w = (.ok a, t)) :
    (x >>= f) w = ((f a w).1, t ++ (f a w).2) := by
  rw [bind_apply, h]

theorem bind_error {α β : Type} {x : Proc α} {f : α → Proc β} {w : World} {e : Nat}
    {t : List Event} (h : x w = (.error e, t)) : (x >>= f) w = (.error e, t) := by
  rw [bind_apply, h]

example : reSearchLargeFile
    "remote: error: File data/big.bin is 123.45 MB; this exceeds the limit" =
    some "data/big.bin" := by decide

example : reSearchLargeFile "GH001: Large files detected" = none := by decide

/-! ## String helper lemmas -/

/-- Two appended strings differ when their left parts differ at a position
inside both left parts. -/
theorem append_ne_append {p q s t : String} {i : Nat} {a b : Char}
    (hp : p.data.get? i = some a) (hq : q.data.get? i = some b) (hab : a ≠ b) :
    p ++ s ≠ q ++ t := by
  intro h
  have hd : p.data ++ s.data = q.data ++ t.data := by
    rw [← String.data_append, ← String.data_append, h]
  have hip : i < p.data.length := (List.get?_eq_some.mp hp).1
  have hiq : i < q.data.length := (List.get?_eq_some.mp hq).1
  have h1 : (p.data ++ s.data).get? i = some a := by rw [List.get?_append hip]; exact hp
  have h2 : (q.data ++ t.data).get? i = some b := by rw [List.get?_append hiq]; exact hq
  rw [hd, h2] at h1
  exact hab (Option.some.inj h1).symm

/-- Variant of `append_ne_append` with a plain string on the left. -/
theorem str_ne_append {p q t : String} {i : Nat} {a b : Char}
    (hp : p.data.get? i = some a) (hq : q.data.get? i = some b) (hab : a ≠ b) :
    p ≠ q ++ t := by
  have := @append_ne_append p q "" t i a b hp hq hab
  rwa [String.append_empty] at this

/-- Variant of `append_ne_append` with a plain string on the right. -/
theorem append_ne_str {p q s : String} {i : Nat} {a b : Char}
    (hp : p.data.get? i = some a) (hq : q.data.get? i = some b) (hab : a ≠ b) :
    p ++ s ≠ q := by
  have := @append_ne_append p q s "" i a b hp hq hab
  rwa [String.append_empty] at this

/-- A list equal to its own `pyStrip`-style double `dropWhile` is fixed by both
single `dropWhile`s. -/
theorem strip_fix {l : List Char}
    (h : ((l.dropWhile isPyWs).reverse.dropWhile isPyWs).reverse = l) :
    l.dropWhile isPyWs = l ∧ l.reverse.dropWhile isPyWs = l.reverse := by
  have h1 : (l.dropWhile isPyWs).length ≤ l.length :=
    (List.dropWhile_sublist _).length_le
  have h2 : ((l.dropWhile isPyWs).reverse.dropWhile isPyWs).length ≤
      (l.dropWhile isPyWs).reverse.length :=
    (List.dropWhile_sublist _).length_le
  have hlen := congrArg List.length h
  simp only [List.length_reverse] at hlen h2
  have ha : l.dropWhile isPyWs = l :=
    (List.dropWhile_sublist _).eq_of_length (by omega)
  refine ⟨ha, ?_⟩
  rw [ha] at h
  have := congrArg List.reverse h
  simpa using this

/-- For a commit message without leading or trailing whitespace, stripping the
`%B` output (the message plus git's terminating newline) recovers the message
exactly. -/
theorem pyStrip_append_newline {msg : String} (h : pyStrip msg = msg) :
    pyStrip (msg ++ "\n") = msg := by
  apply String.ext
  have hd : ((msg.data.dropWhile isPyWs).reverse.dropWhile isPyWs).reverse = msg.data :=
    congrArg String.data h
  obtain ⟨h1, h2⟩ := strip_fix hd
  show ((((msg ++ "\n").data).dropWhile isPyWs).reverse.dropWhile isPyWs).reverse = msg.data
  rw [String.data_append, show ("\n" : String).data = ['\n'] from rfl]
  cases hm : msg.data with
  | nil => decide
  | cons c t =>
    rw [hm] at h1 h2
    have hc : isPyWs c = false := by
      by_contra hcc
      rw [List.dropWhile_cons] at h1
      simp only [Bool.not_eq_false] at hcc
      rw [hcc] at h1
      simp only [if_true] at h1
      have hlen := congrArg List.length h1
      have hle : (t.dropWhile isPyWs).length ≤ t.length :=
        (List.dropWhile_sublist _).length_le
      simp at hlen
      omega
    have hstep : ((c :: t) ++ ['\n']).dropWhile isPyWs = (c :: t) ++ ['\n'] := by
      rw [List.cons_append, List.dropWhile_cons, hc]
      simp
    rw [hstep, List.reverse_concat, List.dropWhile_cons,
      show isPyWs '\n' = true from rfl, if_pos rfl, h2, List.reverse_reverse]

/-! ## C5 -/

/-- C5: if the operator declines the large-file recovery consent prompt
(answer stripping/lowercasing to "n", or EOF / keyboard interrupt), recovery
returns failure immediately and performs no command at all — in particular no
soft reset, no LFS tracking, no recommit and no retry push, so commit history,
index and refs are untouched by the recovery routine. -/
theorem C5_decline_consent_no_effect (w : World) (branch push_error : String)
    (ans : mypush.LfsAnswers)
    (h : ans.consent = none ∨ ∃ s, ans.consent = some s ∧ pyStrip (pyLower s) = "n") :
    mypush.handle_large_file_error branch push_error ans w = (.ok false, []) := by
  unfold mypush.handle_large_file_error
  rcases h with h | ⟨s, hs, hn⟩
  · rw [h]; rfl
  · rw [hs]
    simp [hn]

/-- Witness for C5 at a concrete input (answer `" N "`). -/
theorem C5_witness :
    ((⟨some " N ", none, none⟩ : mypush.LfsAnswers).consent = none ∨
      ∃ s, (⟨some " N ", none, none⟩ : mypush.LfsAnswers).consent = some s ∧
        pyStrip (pyLower s) = "n") ∧
    mypush.handle_large_file_error "main" "GH001: Large files detected"
      ⟨some " N ", none, none⟩ W0 = (.ok false, []) := by
  refine ⟨Or.inr ⟨" N ", rfl, by decide⟩, ?_⟩
  exact C5_decline_consent_no_effect W0 "main" "GH001: Large files detected"
    ⟨some " N ", none, none⟩ (Or.inr ⟨" N ", rfl, by decide⟩)

/-! ## The recovery routine: master case analysis -/

theorem lfsRewriteAndRetry_spec (w : World) (b lf : String) :
    mypush.lfsRewriteAndRetry b lf w =
      ((if (w.ptyExec ("git push origin " ++ b)).1 = 0 then .ok true else .ok false),
       mypush.handleTrace w b lf) := by
  by_cases hrc : (w.ptyExec ("git push origin " ++ b)).1 = 0 <;>
    simp [mypush.lfsRewriteAndRetry, mypush.handleTrace, hrc]

/-- Master case analysis of `handle_large_file_error`: either it aborts with
`False` having run nothing, or it identified a non-empty path `lf` (from the
regex extraction confirmed by the operator, or from manual entry) and ran
exactly the rewrite/recommit/retry sequence `handleTrace`. -/
theorem handle_main (w : World) (b e : String) (ans : mypush.LfsAnswers) :
    mypush.handle_large_file_error b e ans w = (.ok false, []) ∨
    ∃ lf, lf ≠ "" ∧
      ((∃ g c, reSearchLargeFile e = some g ∧ ans.pathConfirm = some c ∧
          pyStrip (pyLower c) ≠ "n" ∧ lf = pyStrip g) ∨
       (∃ m, ans.manualPath = some m ∧ lf = pyStrip m)) ∧
      mypush.handle_large_file_error b e ans w =
        ((if (w.ptyExec ("git push origin " ++ b)).1 = 0 then .ok true else .ok false),
         mypush.handleTrace w b lf) := by
  obtain ⟨co, pc, mp⟩ := ans
  cases co with
  | none => exact Or.inl rfl
  | some s =>
    by_cases hn : pyStrip (pyLower s) = "n"
    · left; simp [mypush.handle_large_file_error, hn]
    · cases hre : reSearchLargeFile e with
      | none =>
        cases mp with
        | none => left; simp [mypush.handle_large_file_error, hn, hre]
        | some m =>
          by_cases hm : pyStrip m = ""
          · left; simp [mypush.handle_large_file_error, hn, hre, hm]
          · right
            refine ⟨pyStrip m, hm, Or.inr ⟨m, rfl, rfl⟩, ?_⟩
            simp [mypush.handle_large_file_error, hn, hre, hm, lfsRewriteAndRetry_spec]
      | some g =>
        cases pc with
        | none => left; simp [mypush.handle_large_file_error, hn, hre]
        | some conf =>
          by_cases hcn : pyStrip (pyLower conf) = "n"
          · cases mp with
            | none => left; simp [mypush.handle_large_file_error, hn, hre, hcn]
            | some m =>
              by_cases hm : pyStrip m = ""
              · left; simp [mypush.handle_large_file_error, hn, hre, hcn, hm]
              · right
                refine ⟨pyStrip m, hm, Or.inr ⟨m, rfl, rfl⟩, ?_⟩
                simp [mypush.handle_large_file_error, hn, hre, hcn, hm, lfsRewriteAndRetry_spec]
          · by_cases hg : pyStrip g = ""
            · cases mp with
              | none => left; simp [mypush.handle_large_file_error, hn, hre, hcn, hg]
              | some m =>
                by_cases hm : pyStrip m = ""
                · left; simp [mypush.handle_large_file_error, hn, hre, hcn, hg, hm]
                · right
                  refine ⟨pyStrip m, hm, Or.inr ⟨m, rfl, rfl⟩, ?_⟩
                  simp [mypush.handle_large_file_error, hn, hre, hcn, hg, hm,
                    lfsRewriteAndRetry_spec]
            · right
              refine ⟨pyStrip g, hg, Or.inl ⟨g, conf, rfl, rfl, hcn, rfl⟩, ?_⟩
              simp [mypush.handle_large_file_error, hn, hre, hcn, hg, lfsRewriteAndRetry_spec]

/-! ## C2 -/

/-- C2 (amended): for every original commit message without leading or trailing
whitespace (which is what git's default commit-message cleanup produces) —
including messages with embedded double quotes and interior newlines — every
recommit message written by large-file recovery equals the original message
followed by exactly `"\n\n[LFS Added]"`.  The hypothesis `hB` says the last
commit's message is `msg`: `git log -1 --pretty=%B` prints it with git's
terminating newline. -/
theorem C2_recommit_message (w : World) (branch push_error : String)
    (ans : mypush.LfsAnswers) (msg : String)
    (hB : (w.exec "git log -1 --pretty=%B").stdout = msg ++ "\n")
    (hclean : pyStrip msg = msg) :
    ∀ c, Event.tmpWrite c ∈ (mypush.handle_large_file_error branch push_error ans w).2 →
      c = msg ++ "\n\n[LFS Added]" := by
  intro c hc
  rcases handle_main w branch push_error ans with h | ⟨lf, _, _, h⟩
  · rw [h] at hc
    simp at hc
  · rw [h] at hc
    simp [mypush.handleTrace] at hc
    rw [hc, hB, pyStrip_append_newline hclean]

/-- Witness for C2 at a concrete input: original message
`"fix \"bug\"\nmore details"` (embedded quote and newline). -/
theorem C2_witness :
    ((WC2.exec "git log -1 --pretty=%B").stdout = "fix \"bug\"\nmore details" ++ "\n" ∧
      pyStrip "fix \"bug\"\nmore details" = "fix \"bug\"\nmore details") ∧
    (∀ c, Event.tmpWrite c ∈
        (mypush.handle_large_file_error "main" "GH001: Large files detected"
          ⟨some "y", none, some "big.bin"⟩ WC2).2 →
      c = "fix \"bug\"\nmore details" ++ "\n\n[LFS Added]") :=
  ⟨⟨by decide, by decide⟩,
   C2_recommit_message WC2 "main" "GH001: Large files detected"
     ⟨some "y", none, some "big.bin"⟩ "fix \"bug\"\nmore details"
     (by decide) (by decide)⟩

/-- Counterexample to C2 as stated: for the original commit message `"fix\n"`
(which ends in a newline; such messages are creatable with
`git commit --cleanup=verbatim`), a completed recovery writes the recommit
message `"fix\n\n[LFS Added]"`, not `"fix\n" ++ "\n\n[LFS Added]"`: the
original message is not preserved byte-for-byte. -/
theorem C2_counterexample :
    (WC2x.exec "git log -1 --pretty=%B").stdout = "fix\n" ++ "\n" ∧
    Event.tmpWrite "fix\n\n[LFS Added]" ∈
      (mypush.handle_large_file_error "main" "GH001: Large files detected"
        ⟨some "y", none, some "big.bin"⟩ WC2x).2 ∧
    Event.tmpWrite ("fix\n" ++ "\n\n[LFS Added]") ∉
      (mypush.handle_large_file_error "main" "GH001: Large files detected"
        ⟨some "y", none, some "big.bin"⟩ WC2x).2 := by
  decide

/-! ## C8 -/

/-- C8: for push-error text carrying the large-file rejection signature, the
identification step of recovery is safe: whenever recovery goes on to rewrite
the commit (the soft reset is in the trace), it did so with a non-empty path
`lf` that either came from the regex extraction and was confirmed by the
operator, or was entered manually — and that path is the one handed to
`git lfs track`; an empty manual entry makes recovery return failure without
running anything (no crash, no empty non-manual path). -/
theorem C8_identification_safe (w : World) (branch err : String) (ans : mypush.LfsAnswers)
    (_hsig : strContains err "GH001: Large files detected" = true) :
    (Event.cmd "git reset --soft HEAD~1" ∈
        (mypush.handle_large_file_error branch err ans w).2 →
      ∃ lf, lf ≠ "" ∧
        Event.cmd ("git lfs track '" ++ lf ++ "'") ∈
          (mypush.handle_large_file_error branch err ans w).2 ∧
        ((∃ g c, reSearchLargeFile err = some g ∧ ans.pathConfirm = some c ∧
            pyStrip (pyLower c) ≠ "n" ∧ lf = pyStrip g) ∨
         (∃ m, ans.manualPath = some m ∧ lf = pyStrip m))) ∧
    (∀ m, reSearchLargeFile err = none → ans.manualPath = some m → pyStrip m = "" →
      mypush.handle_large_file_error branch err ans w = (.ok false, [])) := by
  constructor
  · intro hmem
    rcases handle_main w branch err ans with h | ⟨lf, hlf, hroute, h⟩
    · rw [h] at hmem; simp at hmem
    · refine ⟨lf, hlf, ?_, hroute⟩
      rw [h]
      simp [mypush.handleTrace]
  · intro m hre hmp hm
    rcases handle_main w branch err ans with h | ⟨lf, hlf, hroute, h⟩
    · exact h
    · exfalso
      rcases hroute with ⟨g, c, hg, _⟩ | ⟨m', hm', hlf'⟩
      · rw [hre] at hg; cases hg
      · rw [hmp] at hm'
        injection hm' with hm'
        rw [← hm', hm] at hlf'
        exact hlf hlf'

/-- Witness for C8 at a concrete input (signature present, extraction
succeeds, operator confirms the path). -/
theorem C8_witness :
    (strContains
        "remote: error: GH001: Large files detected.\nremote: error: File big.bin is 500.00 MB"
        "GH001: Large files detected" = true) ∧
    ((Event.cmd "git reset --soft HEAD~1" ∈
        (mypush.handle_large_file_error "main"
          "remote: error: GH001: Large files detected.\nremote: error: File big.bin is 500.00 MB"
          ⟨some "y", some "y", none⟩ W0).2 →
      ∃ lf, lf ≠ "" ∧
        Event.cmd ("git lfs track '" ++ lf ++ "'") ∈
          (mypush.handle_large_file_error "main"
            "remote: error: GH001: Large files detected.\nremote: error: File big.bin is 500.00 MB"
            ⟨some "y", some "y", none⟩ W0).2 ∧
        ((∃ g c, reSearchLargeFile
              "remote: error: GH001: Large files detected.\nremote: error: File big.bin is 500.00 MB"
              = some g ∧
            (⟨some "y", some "y", none⟩ : mypush.LfsAnswers).pathConfirm = some c ∧
            pyStrip (pyLower c) ≠ "n" ∧ lf = pyStrip g) ∨
         (∃ m, (⟨some "y", some "y", none⟩ : mypush.LfsAnswers).manualPath = some m ∧
            lf = pyStrip m))) ∧
    (∀ m, reSearchLargeFile
          "remote: error: GH001: Large files detected.\nremote: error: File big.bin is 500.00 MB"
          = none →
        (⟨some "y", some "y", none⟩ : mypush.LfsAnswers).manualPath = some m → pyStrip m = "" →
        mypush.handle_large_file_error "main"
          "remote: error: GH001: Large files detected.\nremote: error: File big.bin is 500.00 MB"
          ⟨some "y", some "y", none⟩ W0 = (.ok false, []))) :=
  ⟨by decide,
   C8_identification_safe W0 "main"
     "remote: error: GH001: Large files detected.\nremote: error: File big.bin is 500.00 MB"
     ⟨some "y", some "y", none⟩ (by decide)⟩

/-! ## C9 -/

theorem handleTrace_count_push (w : World) (b lf : String) :
    (mypush.handleTrace w b lf).count (Event.cmd ("git push origin " ++ b)) = 1 := by
  have e1 : ("git log -1 --pretty=%B" : String) ≠ "git push origin " ++ b :=
    @str_ne_append "git log -1 --pretty=%B" "git push origin " b 4 'l' 'p'
      (by decide) (by decide) (by decide)
  have e2 : ("git reset --soft HEAD~1" : String) ≠ "git push origin " ++ b :=
    @str_ne_append "git reset --soft HEAD~1" "git push origin " b 4 'r' 'p'
      (by decide) (by decide) (by decide)
  have e3 : ("git lfs install" : String) ≠ "git push origin " ++ b :=
    @str_ne_append "git lfs install" "git push origin " b 4 'l' 'p'
      (by decide) (by decide) (by decide)
  have e4 : "git lfs track '" ++ (lf ++ "'") ≠ "git push origin " ++ b :=
    @append_ne_append "git lfs track '" "git push origin " (lf ++ "'") b 4 'l' 'p'
      (by decide) (by decide) (by decide)
  have e5 : "git add .gitattributes '" ++ (lf ++ "'") ≠ "git push origin " ++ b :=
    @append_ne_append "git add .gitattributes '" "git push origin " (lf ++ "'") b 4 'a' 'p'
      (by decide) (by decide) (by decide)
  have e6 : "git commit -F " ++ w.tmpName ≠ "git push origin " ++ b :=
    @append_ne_append "git commit -F " "git push origin " w.tmpName b 4 'c' 'p'
      (by decide) (by decide) (by decide)
  simp [mypush.handleTrace, List.count_cons, String.append_assoc, e1, e2, e3, e4, e5, e6]

/-- C9: the recovery push is retried at most once — the recovery routine's
trace contains the retry push command at most once (exactly once when the
rewrite phase runs, by `handleTrace_count_push`); if that single retry fails,
recovery returns failure; and `push_branch` issues the plain push command for
its branch at most twice in total (the initial attempt plus at most one
recovery retry), never re-entering recovery. -/
theorem C9_retry_exactly_once (w : World) (b e branch : String) (ans : mypush.LfsAnswers) :
    ((mypush.handle_large_file_error b e ans w).2.count
        (Event.cmd ("git push origin " ++ b)) ≤ 1) ∧
    ((w.ptyExec ("git push origin " ++ b)).1 ≠ 0 →
      (mypush.handle_large_file_error b e ans w).1 = .ok false) ∧
    ((mypush.push_branch branch ans w).2.count
        (Event.cmd ("git push origin " ++ pyRemovesuffix branch ":new")) ≤ 2) := by
  have hcount : ∀ (e' : String),
      (mypush.handle_large_file_error b e' ans w).2.count
        (Event.cmd ("git push origin " ++ b)) ≤ 1 := by
    intro e'
    rcases handle_main w b e' ans with h | ⟨lf, _, _, h⟩
    · rw [h]; simp
    · rw [h]
      exact le_of_eq (handleTrace_count_push w b lf)
  refine ⟨hcount e, ?_, ?_⟩
  · intro hrc
    rcases handle_main w b e ans with h | ⟨lf, _, _, h⟩
    · rw [h]
    · rw [h]
      simp [hrc]
  · have hcount' : ∀ (e' : String),
        (mypush.handle_large_file_error (pyRemovesuffix branch ":new") e' ans w).2.count
          (Event.cmd ("git push origin " ++ pyRemovesuffix branch ":new")) ≤ 1 := by
      intro e'
      rcases handle_main w (pyRemovesuffix branch ":new") e' ans with h | ⟨lf, _, _, h⟩
      · rw [h]; simp
      · rw [h]
        exact le_of_eq (handleTrace_count_push w (pyRemovesuffix branch ":new") lf)
    by_cases hnew : pyEndswith branch ":new"
    · have hne : ("git push -u origin " ++ pyRemovesuffix branch ":new") ≠
          "git push origin " ++ pyRemovesuffix branch ":new" :=
        @append_ne_append "git push -u origin " "git push origin "
          (pyRemovesuffix branch ":new") (pyRemovesuffix branch ":new") 9 '-' 'o'
          (by decide) (by decide) (by decide)
      by_cases h0 : (w.ptyExec ("git push -u origin " ++ pyRemovesuffix branch ":new")).1 = 0
      · simp [mypush.push_branch, hnew, h0, List.count_cons, hne]
      · by_cases hgh : strContains
            ((w.ptyExec ("git push -u origin " ++ pyRemovesuffix branch ":new")).2 ++
              (w.ptyExec ("git push -u origin " ++ pyRemovesuffix branch ":new")).2)
            "GH001: Large files detected" = true
        · have := hcount'
            ((w.ptyExec ("git push -u origin " ++ pyRemovesuffix branch ":new")).2 ++
              (w.ptyExec ("git push -u origin " ++ pyRemovesuffix branch ":new")).2)
          simp [mypush.push_branch, hnew, h0, hgh, List.count_cons, hne]
          omega
        · simp [mypush.push_branch, hnew, h0, hgh, List.count_cons, hne]
    · by_cases h0 : (w.ptyExec ("git push origin " ++ pyRemovesuffix branch ":new")).1 = 0
      · simp [mypush.push_branch, hnew, h0, List.count_cons]
      · by_cases hgh : strContains
            ((w.ptyExec ("git push origin " ++ pyRemovesuffix branch ":new")).2 ++
              (w.ptyExec ("git push origin " ++ pyRemovesuffix branch ":new")).2)
            "GH001: Large files detected" = true
        · have := hcount'
            ((w.ptyExec ("git push origin " ++ pyRemovesuffix branch ":new")).2 ++
              (w.ptyExec ("git push origin " ++ pyRemovesuffix branch ":new")).2)
          simp [mypush.push_branch, hnew, h0, hgh, List.count_cons]
          omega
        · simp [mypush.push_branch, hnew, h0, hgh, List.count_cons]

/-- Witness for C9 at a concrete input: the retry push fails (exit 1), so
recovery reports failure and the retry command appears at most once. -/
theorem C9_witness :
    ((mypush.handle_large_file_error "main" "irrelevant"
        ⟨some "", none, some "big.bin"⟩ WC9).2.count
        (Event.cmd ("git push origin " ++ "main")) ≤ 1) ∧
    ((WC9.ptyExec ("git push origin " ++ "main")).1 ≠ 0 →
      (mypush.handle_large_file_error "main" "irrelevant"
        ⟨some "", none, some "big.bin"⟩ WC9).1 = .ok false) ∧
    ((mypush.push_branch "main" ⟨some "", none, some "big.bin"⟩ WC9).2.count
        (Event.cmd ("git push origin " ++ pyRemovesuffix "main" ":new")) ≤ 2) :=
  C9_retry_exactly_once WC9 "main" "irrelevant" "main" ⟨some "", none, some "big.bin"⟩

/-! ## `check_interrupted_push`: full characterization -/

/-- Complete input/output description of `check_interrupted_push`: the
unpushed-commits prompt block (shown only when the current branch is non-empty,
has an upstream, and `git log upstream..branch` is non-empty) returns from the
function early — accepted prompt → resume (`True`), EOF/interrupt → `False` —
and only when it falls through does the presence of a merge / cherry-pick /
rebase marker produce the fatal `sys.exit(1)`. -/
theorem cip_full (w : World) (ans : Option String) :
    mypush.check_interrupted_push ans w =
      (let gd := pyStrip ((w.exec "git rev-parse --git-dir").stdout)
       let interrupted :=
         (w.fexists (pyJoin gd "MERGE_HEAD") || w.fexists (pyJoin gd "CHERRY_PICK_HEAD")) ||
         (w.fexists (pyJoin gd "rebase-merge") || w.fexists (pyJoin gd "rebase-apply"))
       let cb := pyStrip ((w.exec "git branch --show-current").stdout)
       let baseT : List Event := [.cmd "git rev-parse --git-dir", .cmd "git branch --show-current"]
       let upCmd := "git rev-parse --abbrev-ref " ++ cb ++ "@\x7bupstream\x7d"
       let logCmd := "git log " ++ cb ++ "@\x7bupstream\x7d.." ++ cb ++ " --oneline"
       let fatal : Except Nat Bool := if interrupted then .error 1 else .ok false
       if cb = "" then (fatal, baseT)
       else if (w.exec upCmd).returncode ≠ 0 then (fatal, baseT ++ [.cmd upCmd])
       else if pyStrip ((w.exec logCmd).stdout) = "" then
         (fatal, baseT ++ [.cmd upCmd, .cmd logCmd])
       else
         match ans with
         | some s =>
           if pyStrip (pyLower s) ≠ "n" then (.ok true, baseT ++ [.cmd upCmd, .cmd logCmd])
           else (fatal, baseT ++ [.cmd upCmd, .cmd logCmd])
         | none => (.ok false, baseT ++ [.cmd upCmd, .cmd logCmd])) := by
  by_cases h1 : pyStrip ((w.exec "git branch --show-current").stdout) = ""
  · simp [mypush.check_interrupted_push, mypush.get_current_branch, h1] <;>
    (try constructor) <;>
    (cases hA : w.fexists (pyJoin (pyStrip ((w.exec "git rev-parse --git-dir").stdout))
        "MERGE_HEAD") <;>
     cases hB : w.fexists (pyJoin (pyStrip ((w.exec "git rev-parse --git-dir").stdout))
        "CHERRY_PICK_HEAD") <;>
     cases hC : w.fexists (pyJoin (pyStrip ((w.exec "git rev-parse --git-dir").stdout))
        "rebase-merge") <;>
     cases hD : w.fexists (pyJoin (pyStrip ((w.exec "git rev-parse --git-dir").stdout))
        "rebase-apply") <;>
     simp [sysExit])
  · by_cases h2 : (w.exec ("git rev-parse --abbrev-ref " ++
        pyStrip ((w.exec "git branch --show-current").stdout) ++
        "@\x7bupstream\x7d")).returncode = 0
    · by_cases h3 : pyStrip ((w.exec ("git log " ++
          pyStrip ((w.exec "git branch --show-current").stdout) ++ "@\x7bupstream\x7d.." ++
          pyStrip ((w.exec "git branch --show-current").stdout) ++ " --oneline")).stdout) = ""
      · simp [mypush.check_interrupted_push, mypush.get_current_branch, h1, h2, h3] <;>
        (try constructor) <;>
        (cases hA : w.fexists (pyJoin (pyStrip ((w.exec "git rev-parse --git-dir").stdout))
            "MERGE_HEAD") <;>
         cases hB : w.fexists (pyJoin (pyStrip ((w.exec "git rev-parse --git-dir").stdout))
            "CHERRY_PICK_HEAD") <;>
         cases hC : w.fexists (pyJoin (pyStrip ((w.exec "git rev-parse --git-dir").stdout))
            "rebase-merge") <;>
         cases hD : w.fexists (pyJoin (pyStrip ((w.exec "git rev-parse --git-dir").stdout))
            "rebase-apply") <;>
         simp [sysExit])
      · cases ans with
        | none =>
          simp [mypush.check_interrupted_push, mypush.get_current_branch, h1, h2, h3]
        | some s =>
          by_cases h4 : pyStrip (pyLower s) = "n"
          · simp [mypush.check_interrupted_push, mypush.get_current_branch, h1, h2, h3, h4] <;>
            (try constructor) <;>
            (cases hA : w.fexists (pyJoin (pyStrip ((w.exec "git rev-parse --git-dir").stdout))
                "MERGE_HEAD") <;>
             cases hB : w.fexists (pyJoin (pyStrip ((w.exec "git rev-parse --git-dir").stdout))
                "CHERRY_PICK_HEAD") <;>
             cases hC : w.fexists (pyJoin (pyStrip ((w.exec "git rev-parse --git-dir").stdout))
                "rebase-merge") <;>
             cases hD : w.fexists (pyJoin (pyStrip ((w.exec "git rev-parse --git-dir").stdout))
                "rebase-apply") <;>
             simp [sysExit])
          · simp [mypush.check_interrupted_push, mypush.get_current_branch, h1, h2, h3, h4]
    · simp [mypush.check_interrupted_push, mypush.get_current_branch, h1, h2] <;>
      (try constructor) <;>
      (cases hA : w.fexists (pyJoin (pyStrip ((w.exec "git rev-parse --git-dir").stdout))
          "MERGE_HEAD") <;>
       cases hB : w.fexists (pyJoin (pyStrip ((w.exec "git rev-parse --git-dir").stdout))
          "CHERRY_PICK_HEAD") <;>
       cases hC : w.fexists (pyJoin (pyStrip ((w.exec "git rev-parse --git-dir").stdout))
          "rebase-merge") <;>
       cases hD : w.fexists (pyJoin (pyStrip ((w.exec "git rev-parse --git-dir").stdout))
          "rebase-apply") <;>
       simp [sysExit])

/-! ## C1 -/

/-- Counterexample to C1 as stated: in `Wc1` a merge marker (`MERGE_HEAD`) is
present in the git directory, yet when the current branch also has unpushed
upstream commits and the operator answers "y" at the resume prompt,
`check_interrupted_push` returns early with resume=`True` — the run is not
fatal, the fatal marker check is bypassed. -/
theorem C1_counterexample :
    Wc1.fexists (pyJoin (pyStrip ((Wc1.exec "git rev-parse --git-dir").stdout))
      "MERGE_HEAD") = true ∧
    (mypush.check_interrupted_push (some "y") Wc1).1 = .ok true ∧
    (mypush.check_interrupted_push (some "y") Wc1).1 ≠ .error 1 := by
  decide

/-- C1 (amended): with any in-progress-operation marker present in the git
directory — `MERGE_HEAD` (merge), `CHERRY_PICK_HEAD` (cherry-pick), or the
`rebase-merge` / `rebase-apply` directories (rebase) — the run is fatal
(`sys.exit(1)`) exactly when the unpushed-commits prompt does not end
`check_interrupted_push` early: that is, whenever the current branch is empty,
or has no upstream, or has no unpushed commits, or the operator answers "n".
If the prompt is shown and the operator accepts, the function returns
resume=`True` and the fatal marker check is bypassed; EOF/interrupt at the
prompt likewise bypasses it (returning `False`). -/
theorem C1_amended (w : World) (ans : Option String)
    (hm : w.fexists (pyJoin (pyStrip ((w.exec "git rev-parse --git-dir").stdout))
        "MERGE_HEAD") = true ∨
      w.fexists (pyJoin (pyStrip ((w.exec "git rev-parse --git-dir").stdout))
        "CHERRY_PICK_HEAD") = true ∨
      w.fexists (pyJoin (pyStrip ((w.exec "git rev-parse --git-dir").stdout))
        "rebase-merge") = true ∨
      w.fexists (pyJoin (pyStrip ((w.exec "git rev-parse --git-dir").stdout))
        "rebase-apply") = true) :
    ((pyStrip ((w.exec "git branch --show-current").stdout) = "" ∨
      (w.exec ("git rev-parse --abbrev-ref " ++
        pyStrip ((w.exec "git branch --show-current").stdout) ++
        "@\x7bupstream\x7d")).returncode ≠ 0 ∨
      pyStrip ((w.exec ("git log " ++
        pyStrip ((w.exec "git branch --show-current").stdout) ++ "@\x7bupstream\x7d.." ++
        pyStrip ((w.exec "git branch --show-current").stdout) ++ " --oneline")).stdout) = "" ∨
      (∃ s, ans = some s ∧ pyStrip (pyLower s) = "n")) →
      (mypush.check_interrupted_push ans w).1 = .error 1) ∧
    ((pyStrip ((w.exec "git branch --show-current").stdout) ≠ "" ∧
      (w.exec ("git rev-parse --abbrev-ref " ++
        pyStrip ((w.exec "git branch --show-current").stdout) ++
        "@\x7bupstream\x7d")).returncode = 0 ∧
      pyStrip ((w.exec ("git log " ++
        pyStrip ((w.exec "git branch --show-current").stdout) ++ "@\x7bupstream\x7d.." ++
        pyStrip ((w.exec "git branch --show-current").stdout) ++ " --oneline")).stdout) ≠ "") →
      ((∀ s, ans = some s → pyStrip (pyLower s) ≠ "n" →
          (mypush.check_interrupted_push ans w).1 = .ok true) ∧
       (ans = none → (mypush.check_interrupted_push ans w).1 = .ok false))) := by
  rw [cip_full w ans]
  have hint : ((w.fexists (pyJoin (pyStrip ((w.exec "git rev-parse --git-dir").stdout))
        "MERGE_HEAD") ||
      w.fexists (pyJoin (pyStrip ((w.exec "git rev-parse --git-dir").stdout))
        "CHERRY_PICK_HEAD")) ||
     (w.fexists (pyJoin (pyStrip ((w.exec "git rev-parse --git-dir").stdout))
        "rebase-merge") ||
      w.fexists (pyJoin (pyStrip ((w.exec "git rev-parse --git-dir").stdout))
        "rebase-apply"))) = true := by
    rcases hm with hm | hm | hm | hm <;> simp [hm]
  constructor
  · rintro (h1 | h2 | h3 | ⟨s, hans, hs⟩)
    · simp [h1, hint]
    · by_cases h1 : pyStrip ((w.exec "git branch --show-current").stdout) = "" <;>
        simp [h1, h2, hint]
    · by_cases h1 : pyStrip ((w.exec "git branch --show-current").stdout) = "" <;>
      by_cases h2 : (w.exec ("git rev-parse --abbrev-ref " ++
          pyStrip ((w.exec "git branch --show-current").stdout) ++
          "@\x7bupstream\x7d")).returncode = 0 <;>
        simp [h1, h2, h3, hint]
    · subst hans
      by_cases h1 : pyStrip ((w.exec "git branch --show-current").stdout) = "" <;>
      by_cases h2 : (w.exec ("git rev-parse --abbrev-ref " ++
          pyStrip ((w.exec "git branch --show-current").stdout) ++
          "@\x7bupstream\x7d")).returncode = 0 <;>
      by_cases h3 : pyStrip ((w.exec ("git log " ++
          pyStrip ((w.exec "git branch --show-current").stdout) ++ "@\x7bupstream\x7d.." ++
          pyStrip ((w.exec "git branch --show-current").stdout) ++ " --oneline")).stdout) = "" <;>
        simp [h1, h2, h3, hs, hint]
  · rintro ⟨k1, k2, k3⟩
    constructor
    · intro s hans hacc
      subst hans
      simp [k1, k2, k3, hacc]
    · intro hans
      subst hans
      simp [k1, k2, k3]

/-- Witness for C1 (amended) at a concrete input: marker present, prompt shown
and accepted with "y" → resume, not fatal. -/
theorem C1_amended_witness :
    (Wc1.fexists (pyJoin (pyStrip ((Wc1.exec "git rev-parse --git-dir").stdout))
      "MERGE_HEAD") = true) ∧
    (pyStrip ((Wc1.exec "git branch --show-current").stdout) ≠ "" ∧
      (Wc1.exec ("git rev-parse --abbrev-ref " ++
        pyStrip ((Wc1.exec "git branch --show-current").stdout) ++
        "@\x7bupstream\x7d")).returncode = 0 ∧
      pyStrip ((Wc1.exec ("git log " ++
        pyStrip ((Wc1.exec "git branch --show-current").stdout) ++ "@\x7bupstream\x7d.." ++
        pyStrip ((Wc1.exec "git branch --show-current").stdout) ++
        " --oneline")).stdout) ≠ "") ∧
    (mypush.check_interrupted_push (some "y") Wc1).1 = .ok true := by
  refine ⟨by decide, by decide, ?_⟩
  exact ((C1_amended Wc1 (some "y") (Or.inl (by decide))).2 (by decide)).1 "y" rfl (by decide)

/-! ## C10 -/

/-- C10: at each of the four default-yes prompts — resume-unpushed-commits
(`check_interrupted_push`), large-file recovery consent and extracted-path
confirmation (`handle_large_file_error`), and tracking-branch creation
(`create_tracking_branches`) — exactly the answer "n" (case-insensitive after
trimming whitespace) declines, and every other answer (including "no" and the
empty string) is treated as acceptance.  Each conjunct characterizes one
prompt site on a concrete environment as a function of an arbitrary answer. -/
theorem C10_default_yes_prompts : ∀ s : String,
    (mypush.check_interrupted_push (some s) W10r =
      (if pyStrip (pyLower s) = "n"
       then (.ok false,
         [Event.cmd "git rev-parse --git-dir", Event.cmd "git branch --show-current",
          Event.cmd "git rev-parse --abbrev-ref main@\x7bupstream\x7d",
          Event.cmd "git log main@\x7bupstream\x7d..main --oneline"])
       else (.ok true,
         [Event.cmd "git rev-parse --git-dir", Event.cmd "git branch --show-current",
          Event.cmd "git rev-parse --abbrev-ref main@\x7bupstream\x7d",
          Event.cmd "git log main@\x7bupstream\x7d..main --oneline"]))) ∧
    (mypush.handle_large_file_error "main" "GH001: Large files detected"
        ⟨some s, none, some "big.bin"⟩ W10c =
      (if pyStrip (pyLower s) = "n" then (.ok false, [])
       else (.ok true, mypush.handleTrace W10c "main" "big.bin"))) ∧
    (mypush.handle_large_file_error "main" "remote: error: File big.bin is 500.00 MB"
        ⟨some "", some s, some ""⟩ W10c =
      (if pyStrip (pyLower s) = "n" then (.ok false, [])
       else (.ok true, mypush.handleTrace W10c "main" "big.bin"))) ∧
    (mypull.create_tracking_branches (some s) W10t =
      (.ok (),
       if pyStrip (pyLower s) = "n"
       then [Event.cmd "git ls-remote --heads origin",
             Event.cmd "git branch --format='%(refname:short)'"]
       else [Event.cmd "git ls-remote --heads origin",
             Event.cmd "git branch --format='%(refname:short)'",
             Event.cmd "git branch --track 'dev' 'origin/dev'"])) ∧
    pyStrip (pyLower "no") ≠ "n" ∧ pyStrip (pyLower "") ≠ "n" ∧
    pyStrip (pyLower " N ") = "n" := by
  intro s
  by_cases h : pyStrip (pyLower s) = "n"
  · refine ⟨?_, ?_, ?_, ?_, by decide, by decide, by decide⟩
    · rw [cip_full W10r (some s)]
      simp [h] <;> decide
    · simp [mypush.handle_large_file_error, h]
    · simp [mypush.handle_large_file_error, h] <;> decide
    · simp [mypull.create_tracking_branches, mypull.get_remote_branches,
        mypull.get_local_branches, h] <;> decide
  · refine ⟨?_, ?_, ?_, ?_, by decide, by decide, by decide⟩
    · rw [cip_full W10r (some s)]
      simp [h] <;> decide
    · simp only [mypush.handle_large_file_error, h]
      decide
    · simp [mypush.handle_large_file_error, h] <;> decide
    · simp [mypull.create_tracking_branches, mypull.get_remote_branches,
        mypull.get_local_branches, h] <;> decide

/-! ## C7 -/

theorem pyEndswith_new (b : String) : pyEndswith (b ++ ":new") ":new" = true := by
  unfold pyEndswith
  rw [String.data_append, List.isSuffixOf_iff_suffix]
  exact List.suffix_append _ _

theorem pyRemovesuffix_new (b : String) : pyRemovesuffix (b ++ ":new") ":new" = b := by
  unfold pyRemovesuffix
  rw [if_pos (pyEndswith_new b)]
  apply String.ext
  show ((b ++ ":new").data.take ((b ++ ":new").data.length - (":new").data.length)) = b.data
  rw [String.data_append, List.length_append]
  show ((b.data ++ (":new").data).take (b.data.length + 4 - 4)) = b.data
  rw [Nat.add_sub_cancel]
  exact List.take_left b.data (":new").data

/-- The loop of `get_branches_to_push` collects, per branch name, exactly what
`branchPushClass` describes. -/
theorem branchesLoop_spec (l : List String) (w : World) :
    (mypush.branchesLoop l w).1 = .ok (l.filterMap (branchPushClass w)) := by
  induction l with
  | nil => rfl
  | cons b rest ih =>
    rcases hr : mypush.branchesLoop rest w with ⟨r, t⟩
    rw [hr] at ih
    simp only at ih
    subst ih
    by_cases hb : b = ""
    · simp [mypush.branchesLoop, hb, branchPushClass, hr]
    · by_cases hup : (w.exec ("git rev-parse --abbrev-ref " ++ b ++
          "@\x7bupstream\x7d")).returncode = 0
      · by_cases heq : pyStrip ((w.exec ("git rev-parse " ++ b)).stdout) =
            pyStrip ((w.exec ("git rev-parse " ++ b ++ "@\x7bupstream\x7d")).stdout)
        · simp [mypush.branchesLoop, hb, hup, heq, branchPushClass, hr]
        · simp [mypush.branchesLoop, hb, hup, heq, branchPushClass, hr]
      · simp [mypush.branchesLoop, hb, hup, branchPushClass, hr]

/-- Counterexample to C7 as stated: in `WC7x` the sole local branch `dev` has
an upstream, its commit `aaaa` differs from the upstream's `bbbb`, and `aaaa`
is an ancestor of `bbbb` (`git merge-base --is-ancestor` exits 0) — the branch
is strictly *behind* its upstream, neither ahead of it nor diverged from it.
Yet `get_branches_to_push` returns its bare name, because the code only
compares the two commit ids for inequality (git_mypush.py:327-331) and never
checks ancestry. The claim's "bare name exactly when ... ahead of or diverged"
is therefore false: behind-only branches are selected too. -/
theorem C7_counterexample :
    (WC7x.exec "git rev-parse --abbrev-ref dev@\x7bupstream\x7d").returncode = 0 ∧
    pyStrip ((WC7x.exec "git rev-parse dev").stdout) ≠
      pyStrip ((WC7x.exec ("git rev-parse dev@\x7bupstream\x7d")).stdout) ∧
    (WC7x.exec "git merge-base --is-ancestor dev origin/dev").returncode = 0 ∧
    (mypush.get_branches_to_push WC7x).1 = .ok ["dev"] := by
  decide

/-- C7 (amended): `get_branches_to_push` returns, for each local branch listed
by `for-each-ref` (in order), the name suffixed `":new"` exactly when the
branch has no configured upstream, the bare name exactly when it has an
upstream and its commit id differs from the upstream's — which holds for
branches ahead of, diverged from, *or strictly behind* their upstream (the
code never tests ancestry, so behind-only branches are selected and pushed
too, where the push then fails as a non-fast-forward) — and omits branches
equal to their upstream (`branchPushClass`); pushing a `":new"` entry issues
an upstream-establishing `git push -u origin <branch>`, while a bare entry is
pushed with a plain `git push origin <branch>`. -/
theorem C7_branch_selection :
    (∀ w : World, (mypush.get_branches_to_push w).1 =
      .ok ((pySplitNl (pyStrip
          ((w.exec "git for-each-ref --format='%(refname:short)' refs/heads/").stdout))).filterMap
        (branchPushClass w))) ∧
    (∀ (b : String) (ans : mypush.LfsAnswers) (w : World),
      (mypush.push_branch (b ++ ":new") ans w).2.head? =
        some (.cmd ("git push -u origin " ++ b))) ∧
    (∀ (b : String) (ans : mypush.LfsAnswers) (w : World),
      pyEndswith b ":new" = false →
      (mypush.push_branch b ans w).2.head? = some (.cmd ("git push origin " ++ b))) := by
  refine ⟨?_, ?_, ?_⟩
  · intro w
    rcases hr : mypush.branchesLoop (pySplitNl (pyStrip
        ((w.exec "git for-each-ref --format='%(refname:short)' refs/heads/").stdout))) w
      with ⟨r, t⟩
    have := branchesLoop_spec (pySplitNl (pyStrip
        ((w.exec "git for-each-ref --format='%(refname:short)' refs/heads/").stdout))) w
    rw [hr] at this
    simp only at this
    subst this
    simp [mypush.get_branches_to_push, hr]
  · intro b ans w
    simp only [mypush.push_branch, bind_apply, run_command_with_progress_apply,
      pyEndswith_new, pyRemovesuffix_new, if_true]
    rcases h0 : (w.ptyExec ("git push -u origin " ++ b)) with ⟨rc, out⟩
    simp [h0]
  · intro b ans w hnew
    have hrs : pyRemovesuffix b ":new" = b := by
      unfold pyRemovesuffix
      rw [hnew]
      simp
    simp only [mypush.push_branch, bind_apply, run_command_with_progress_apply, hnew, hrs]
    rcases h0 : (w.ptyExec ("git push origin " ++ b)) with ⟨rc, out⟩
    simp [h0]

/-- Witness for C7 (amended) at a concrete input (third conjunct's hypothesis
discharged at branch "main"). -/
theorem C7_witness :
    pyEndswith "main" ":new" = false ∧
    (mypush.push_branch "main" ⟨none, none, none⟩ W0).2.head? =
      some (.cmd ("git push origin " ++ "main")) :=
  ⟨by decide, (C7_branch_selection.2.2) "main" ⟨none, none, none⟩ W0 (by decide)⟩

/-! ## C6 -/

/-- C6: in the pull tool's branch sync, for a local branch `b` that is not the
current branch, whose upstream exists and whose commit differs from the
upstream's: the branch ref is moved (`git update-ref`) only when
`git merge-base --is-ancestor b <upstream>` succeeds (local commit a strict
ancestor of the upstream commit, strictness by `local ≠ remote`); otherwise
the branch is recorded as `some false` — which the loop puts into the
`failed_branches` ("needs manual handling") report — and no `git update-ref`
command of any form is issued. -/
theorem C6_ff_only_when_ancestor (w : World)
    (cur b remote merge_ref local_commit remote_commit : String)
    (hb : b ≠ cur)
    (h1 : (w.exec ("git config branch." ++ b ++ ".remote")).returncode = 0)
    (h1s : pyStrip ((w.exec ("git config branch." ++ b ++ ".remote")).stdout) = remote)
    (h2 : (w.exec ("git config branch." ++ b ++ ".merge")).returncode = 0)
    (h2s : pyStrip ((w.exec ("git config branch." ++ b ++ ".merge")).stdout) = merge_ref)
    (h3 : (w.exec ("git show-ref --verify --quiet refs/remotes/" ++
      (remote ++ "/" ++ pyReplace merge_ref "refs/heads/" ""))).returncode = 0)
    (h4 : (w.exec ("git rev-parse " ++ b)).returncode = 0)
    (h4s : pyStrip ((w.exec ("git rev-parse " ++ b)).stdout) = local_commit)
    (h5 : (w.exec ("git rev-parse " ++
      (remote ++ "/" ++ pyReplace merge_ref "refs/heads/" ""))).returncode = 0)
    (h5s : pyStrip ((w.exec ("git rev-parse " ++
      (remote ++ "/" ++ pyReplace merge_ref "refs/heads/" ""))).stdout) = remote_commit)
    (hdiff : local_commit ≠ remote_commit) :
    ((w.exec ("git merge-base --is-ancestor " ++ b ++ " " ++
        (remote ++ "/" ++ pyReplace merge_ref "refs/heads/" ""))).returncode = 0 →
      Event.cmd ("git update-ref refs/heads/" ++ b ++ " " ++ remote_commit) ∈
        (mypull.syncOne cur b w).2) ∧
    ((w.exec ("git merge-base --is-ancestor " ++ b ++ " " ++
        (remote ++ "/" ++ pyReplace merge_ref "refs/heads/" ""))).returncode ≠ 0 →
      (mypull.syncOne cur b w).1 = .ok (some false) ∧
      (∀ e ∈ (mypull.syncOne cur b w).2, ∀ args : String,
        e ≠ .cmd ("git update-ref " ++ args))) ∧
    (∀ (l u f : List String) (t : List Event),
      mypull.syncLoop cur l w = (.ok (u, f), t) →
      ∀ b' ∈ l, (mypull.syncOne cur b' w).1 = .ok (some false) → b' ∈ f) := by
  refine ⟨?_, ?_, ?_⟩
  · intro hmb
    simp [mypull.syncOne, h1, h1s, h2, h2s, h3, h4, h5, h4s, h5s, hdiff, hb, hmb]
  · intro hmb
    constructor
    · simp [mypull.syncOne, h1, h1s, h2, h2s, h3, h4, h5, h4s, h5s, hdiff, hb, hmb]
    · intro e he args
      simp [mypull.syncOne, h1, h1s, h2, h2s, h3, h4, h5, h4s, h5s, hdiff, hb, hmb] at he
      rcases he with he | he | he | he | he | he <;> subst he <;> intro heq <;>
        injection heq with hs
      · rw [String.append_assoc] at hs
        exact @append_ne_append "git config branch." "git update-ref "
          (b ++ ".remote") args 4 'c' 'u' (by decide) (by decide) (by decide) hs
      · rw [String.append_assoc] at hs
        exact @append_ne_append "git config branch." "git update-ref "
          (b ++ ".merge") args 4 'c' 'u' (by decide) (by decide) (by decide) hs
      · exact @append_ne_append "git show-ref --verify --quiet refs/remotes/"
          "git update-ref " (remote ++ "/" ++ pyReplace merge_ref "refs/heads/" "") args
          4 's' 'u' (by decide) (by decide) (by decide) hs
      · exact @append_ne_append "git rev-parse " "git update-ref " b args
          4 'r' 'u' (by decide) (by decide) (by decide) hs
      · exact @append_ne_append "git rev-parse " "git update-ref "
          (remote ++ "/" ++ pyReplace merge_ref "refs/heads/" "") args
          4 'r' 'u' (by decide) (by decide) (by decide) hs
      · rw [String.append_assoc, String.append_assoc] at hs
        exact @append_ne_append "git merge-base --is-ancestor " "git update-ref "
          (b ++ (" " ++ (remote ++ "/" ++ pyReplace merge_ref "refs/heads/" ""))) args
          4 'm' 'u' (by decide) (by decide) (by decide) hs
  · intro l
    induction l with
    | nil => intro u f t _ b' hb'; cases hb'
    | cons x rest ih =>
      intro u f t hloop b' hb' hres
      rcases hx : mypull.syncOne cur x w with ⟨rx, tx⟩
      rcases hrest : mypull.syncLoop cur rest w with ⟨rr, tr⟩
      cases rx with
      | error e =>
        rw [show mypull.syncLoop cur (x :: rest) w = (.error e, tx) by
          simp [mypull.syncLoop, hx]] at hloop
        cases hloop
      | ok vx =>
        cases rr with
        | error e =>
          rw [show mypull.syncLoop cur (x :: rest) w = (.error e, tx ++ tr) by
            simp [mypull.syncLoop, hx, hrest]] at hloop
          cases hloop
        | ok vr =>
          rcases vr with ⟨u', f'⟩
          cases vx with
          | none =>
            rw [show mypull.syncLoop cur (x :: rest) w = (.ok (u', f'), tx ++ tr) by
              simp [mypull.syncLoop, hx, hrest]] at hloop
            injection hloop with hok _
            injection hok with hok
            injection hok with hu hf
            rcases List.mem_cons.mp hb' with rfl | hb'
            · rw [hx] at hres; simp at hres
            · exact hf ▸ ih u' f' tr hrest b' hb' hres
          | some bb =>
            cases bb with
            | true =>
              rw [show mypull.syncLoop cur (x :: rest) w = (.ok (x :: u', f'), tx ++ tr) by
                simp [mypull.syncLoop, hx, hrest]] at hloop
              injection hloop with hok _
              injection hok with hok
              injection hok with hu hf
              rcases List.mem_cons.mp hb' with rfl | hb'
              · rw [hx] at hres; simp at hres
              · exact hf ▸ ih u' f' tr hrest b' hb' hres
            | false =>
              rw [show mypull.syncLoop cur (x :: rest) w = (.ok (u', x :: f'), tx ++ tr) by
                simp [mypull.syncLoop, hx, hrest]] at hloop
              injection hloop with hok _
              injection hok with hok
              injection hok with hu hf
              rcases List.mem_cons.mp hb' with rfl | hb'
              · rw [← hf]
                exact List.mem_cons_self _ _
              · rw [← hf]
                exact List.mem_cons_of_mem _ (ih u' f' tr hrest b' hb' hres)

/-- Witness for C6 at a concrete input: branch `dev` (not current) differs
from `origin/dev` and is an ancestor of it, so its ref is moved. -/
theorem C6_witness :
    ("dev" : String) ≠ "main" ∧
    ((WC6.exec ("git merge-base --is-ancestor " ++ "dev" ++ " " ++
      ("origin" ++ "/" ++ pyReplace "refs/heads/dev" "refs/heads/" ""))).returncode = 0) ∧
    Event.cmd ("git update-ref refs/heads/" ++ "dev" ++ " " ++ "bbbb") ∈
      (mypull.syncOne "main" "dev" WC6).2 :=
  ⟨by decide, by decide,
   (C6_ff_only_when_ancestor WC6 "main" "dev" "origin" "refs/heads/dev" "aaaa" "bbbb"
     (by decide) (by decide) (by decide) (by decide) (by decide) (by decide)
     (by decide) (by decide) (by decide) (by decide) (by decide)).1 (by decide)⟩

/-! ## Component lemmas for `mypush.main` -/

theorem check_git_repo_cases (w : World) :
    mypush.check_git_repo w = (.ok (), [.cmd "git rev-parse --git-dir"]) ∨
    mypush.check_git_repo w = (.error 1, [.cmd "git rev-parse --git-dir"]) := by
  by_cases h : (w.exec "git rev-parse --git-dir").returncode = 0
  · left; simp [mypush.check_git_repo, h]
  · right; simp [mypush.check_git_repo, h, sysExit]

theorem lfsCleanLoop_spec (w : World) (root : String) (files : List String) (m : Bool) :
    ∃ (mm : Bool) (t : List Event),
      mypush.lfsCleanLoop root files m w = (.ok mm, t) ∧
      ∀ e ∈ t, ∃ f, e = .cmd ("git lfs untrack '" ++ f ++ "'") := by
  induction files generalizing m with
  | nil => exact ⟨m, [], rfl, by simp⟩
  | cons f rest ih =>
    by_cases hf : f = ""
    · obtain ⟨mm, t, heq, hsh⟩ := ih m
      exact ⟨mm, t, by simp [mypush.lfsCleanLoop, hf, heq], hsh⟩
    · by_cases hex : w.fexists (pyJoin root f) = true
      · obtain ⟨mm, t, heq, hsh⟩ := ih m
        exact ⟨mm, t, by simp [mypush.lfsCleanLoop, hf, hex, heq], hsh⟩
      · obtain ⟨mm, t, heq, hsh⟩ := ih true
        refine ⟨mm, .cmd ("git lfs untrack '" ++ f ++ "'") :: t, ?_, ?_⟩
        · simp [mypush.lfsCleanLoop, hf, hex, heq]
        · intro e he
          rcases List.mem_cons.mp he with rfl | he
          · exact ⟨f, rfl⟩
          · exact hsh e he

theorem check_lfs_spec (w : World) :
    ∃ t, mypush.check_lfs_files_status w = (.ok (), t) ∧ ∀ e ∈ t, queryEvent e := by
  by_cases h1 : (w.exec "git lfs --version").returncode = 0
  · by_cases h2 : (w.exec "git lfs ls-files -n").returncode = 0
    · by_cases h3 : pyStrip ((w.exec "git lfs ls-files -n").stdout) = ""
      · refine ⟨[.cmd "git lfs --version", .cmd "git lfs ls-files -n"], ?_, ?_⟩
        · simp [mypush.check_lfs_files_status, h1, h2, h3]
        · intro e he
          rcases List.mem_cons.mp he with rfl | he
          · exact Or.inr (Or.inl rfl)
          · rcases List.mem_cons.mp he with rfl | he
            · exact Or.inr (Or.inr (Or.inl rfl))
            · cases he
      · by_cases h4 : (w.exec "git rev-parse --show-toplevel").returncode = 0
        · obtain ⟨mm, t, heq, hsh⟩ := lfsCleanLoop_spec w
            (pyStrip ((w.exec "git rev-parse --show-toplevel").stdout))
            (pySplitNl (pyStrip ((w.exec "git lfs ls-files -n").stdout))) false
          by_cases h5 : mm = true
          · refine ⟨[.cmd "git lfs --version", .cmd "git lfs ls-files -n",
              .cmd "git rev-parse --show-toplevel"] ++ t ++ [.cmd "git add .gitattributes"],
              ?_, ?_⟩
            · simp [mypush.check_lfs_files_status, h1, h2, h3, h4, heq, h5]
            · intro e he
              simp only [List.mem_append, List.mem_cons, List.not_mem_nil, or_false] at he
              rcases he with ((rfl | rfl | rfl) | he) | rfl
              · exact Or.inr (Or.inl rfl)
              · exact Or.inr (Or.inr (Or.inl rfl))
              · exact Or.inr (Or.inr (Or.inr (Or.inl rfl)))
              · exact Or.inr (Or.inr (Or.inr (Or.inr (Or.inl (hsh e he)))))
              · exact Or.inr (Or.inr (Or.inr (Or.inr (Or.inr (Or.inl rfl)))))
          · refine ⟨[.cmd "git lfs --version", .cmd "git lfs ls-files -n",
              .cmd "git rev-parse --show-toplevel"] ++ t, ?_, ?_⟩
            · simp [mypush.check_lfs_files_status, h1, h2, h3, h4, heq, h5]
            · intro e he
              simp only [List.mem_append, List.mem_cons, List.not_mem_nil, or_false] at he
              rcases he with (rfl | rfl | rfl) | he
              · exact Or.inr (Or.inl rfl)
              · exact Or.inr (Or.inr (Or.inl rfl))
              · exact Or.inr (Or.inr (Or.inr (Or.inl rfl)))
              · exact Or.inr (Or.inr (Or.inr (Or.inr (Or.inl (hsh e he)))))
        · refine ⟨[.cmd "git lfs --version", .cmd "git lfs ls-files -n",
            .cmd "git rev-parse --show-toplevel"], ?_, ?_⟩
          · simp [mypush.check_lfs_files_status, h1, h2, h3, h4]
          · intro e he
            rcases List.mem_cons.mp he with rfl | he
            · exact Or.inr (Or.inl rfl)
            · rcases List.mem_cons.mp he with rfl | he
              · exact Or.inr (Or.inr (Or.inl rfl))
              · rcases List.mem_cons.mp he with rfl | he
                · exact Or.inr (Or.inr (Or.inr (Or.inl rfl)))
                · cases he
    · refine ⟨[.cmd "git lfs --version", .cmd "git lfs ls-files -n"], ?_, ?_⟩
      · simp [mypush.check_lfs_files_status, h1, h2]
      · intro e he
        rcases List.mem_cons.mp he with rfl | he
        · exact Or.inr (Or.inl rfl)
        · rcases List.mem_cons.mp he with rfl | he
          · exact Or.inr (Or.inr (Or.inl rfl))
          · cases he
  · refine ⟨[.cmd "git lfs --version"], ?_, ?_⟩
    · simp [mypush.check_lfs_files_status, h1]
    · intro e he
      rcases List.mem_cons.mp he with rfl | he
      · exact Or.inr (Or.inl rfl)
      · cases he

theorem cip_shape (w : World) (ans : Option String) :
    ∀ e ∈ (mypush.check_interrupted_push ans w).2, queryEvent e := by
  intro e he
  rw [cip_full w ans] at he
  by_cases h1 : pyStrip ((w.exec "git branch --show-current").stdout) = ""
  · simp [h1] at he
    rcases he with rfl | rfl
    · exact Or.inl rfl
    · exact Or.inr (Or.inr (Or.inr (Or.inr (Or.inr (Or.inr (Or.inl rfl))))))
  · by_cases h2 : (w.exec ("git rev-parse --abbrev-ref " ++
        pyStrip ((w.exec "git branch --show-current").stdout) ++
        "@\x7bupstream\x7d")).returncode = 0
    · by_cases h3 : pyStrip ((w.exec ("git log " ++
          pyStrip ((w.exec "git branch --show-current").stdout) ++ "@\x7bupstream\x7d.." ++
          pyStrip ((w.exec "git branch --show-current").stdout) ++ " --oneline")).stdout) = ""
      · simp [h1, h2, h3] at he
        rcases he with rfl | rfl | rfl | rfl
        · exact Or.inl rfl
        · exact Or.inr (Or.inr (Or.inr (Or.inr (Or.inr (Or.inr (Or.inl rfl))))))
        · exact Or.inr (Or.inr (Or.inr (Or.inr (Or.inr (Or.inr (Or.inr (Or.inl ⟨_, rfl⟩)))))))
        · exact Or.inr (Or.inr (Or.inr (Or.inr (Or.inr (Or.inr (Or.inr (Or.inr ⟨_, rfl⟩)))))))
      · cases ans with
        | none =>
          simp [h1, h2, h3] at he
          rcases he with rfl | rfl | rfl | rfl
          · exact Or.inl rfl
          · exact Or.inr (Or.inr (Or.inr (Or.inr (Or.inr (Or.inr (Or.inl rfl))))))
          · exact Or.inr (Or.inr (Or.inr (Or.inr (Or.inr (Or.inr (Or.inr (Or.inl ⟨_, rfl⟩)))))))
          · exact Or.inr (Or.inr (Or.inr (Or.inr (Or.inr (Or.inr (Or.inr (Or.inr ⟨_, rfl⟩)))))))
        | some s =>
          by_cases h4 : pyStrip (pyLower s) = "n"
          · simp [h1, h2, h3, h4] at he
            rcases he with rfl | rfl | rfl | rfl
            · exact Or.inl rfl
            · exact Or.inr (Or.inr (Or.inr (Or.inr (Or.inr (Or.inr (Or.inl rfl))))))
            · exact Or.inr (Or.inr (Or.inr (Or.inr (Or.inr (Or.inr (Or.inr (Or.inl ⟨_, rfl⟩)))))))
            · exact Or.inr (Or.inr (Or.inr (Or.inr (Or.inr (Or.inr (Or.inr (Or.inr ⟨_, rfl⟩)))))))
          · simp [h1, h2, h3, h4] at he
            rcases he with rfl | rfl | rfl | rfl
            · exact Or.inl rfl
            · exact Or.inr (Or.inr (Or.inr (Or.inr (Or.inr (Or.inr (Or.inl rfl))))))
            · exact Or.inr (Or.inr (Or.inr (Or.inr (Or.inr (Or.inr (Or.inr (Or.inl ⟨_, rfl⟩)))))))
            · exact Or.inr (Or.inr (Or.inr (Or.inr (Or.inr (Or.inr (Or.inr (Or.inr ⟨_, rfl⟩)))))))
    · simp [h1, h2] at he
      rcases he with rfl | rfl | rfl
      · exact Or.inl rfl
      · exact Or.inr (Or.inr (Or.inr (Or.inr (Or.inr (Or.inr (Or.inl rfl))))))
      · exact Or.inr (Or.inr (Or.inr (Or.inr (Or.inr (Or.inr (Or.inr (Or.inl ⟨_, rfl⟩)))))))

theorem cip_result_cases (w : World) (ans : Option String) :
    (mypush.check_interrupted_push ans w).1 = .error 1 ∨
    (mypush.check_interrupted_push ans w).1 = .ok true ∨
    (mypush.check_interrupted_push ans w).1 = .ok false := by
  rw [cip_full w ans]
  by_cases h1 : pyStrip ((w.exec "git branch --show-current").stdout) = ""
  · cases hA : w.fexists (pyJoin (pyStrip ((w.exec "git rev-parse --git-dir").stdout))
        "MERGE_HEAD") <;>
    cases hB : w.fexists (pyJoin (pyStrip ((w.exec "git rev-parse --git-dir").stdout))
        "CHERRY_PICK_HEAD") <;>
    cases hC : w.fexists (pyJoin (pyStrip ((w.exec "git rev-parse --git-dir").stdout))
        "rebase-merge") <;>
    cases hD : w.fexists (pyJoin (pyStrip ((w.exec "git rev-parse --git-dir").stdout))
        "rebase-apply") <;>
    simp [h1, hA, hB, hC, hD]
  · by_cases h2 : (w.exec ("git rev-parse --abbrev-ref " ++
        pyStrip ((w.exec "git branch --show-current").stdout) ++
        "@\x7bupstream\x7d")).returncode = 0
    · by_cases h3 : pyStrip ((w.exec ("git log " ++
          pyStrip ((w.exec "git branch --show-current").stdout) ++ "@\x7bupstream\x7d.." ++
          pyStrip ((w.exec "git branch --show-current").stdout) ++ " --oneline")).stdout) = ""
      · cases hA : w.fexists (pyJoin (pyStrip ((w.exec "git rev-parse --git-dir").stdout))
            "MERGE_HEAD") <;>
        cases hB : w.fexists (pyJoin (pyStrip ((w.exec "git rev-parse --git-dir").stdout))
            "CHERRY_PICK_HEAD") <;>
        cases hC : w.fexists (pyJoin (pyStrip ((w.exec "git rev-parse --git-dir").stdout))
            "rebase-merge") <;>
        cases hD : w.fexists (pyJoin (pyStrip ((w.exec "git rev-parse --git-dir").stdout))
            "rebase-apply") <;>
        simp [h1, h2, h3, hA, hB, hC, hD]
      · cases ans with
        | none => simp [h1, h2, h3]
        | some s =>
          by_cases h4 : pyStrip (pyLower s) = "n"
          · cases hA : w.fexists (pyJoin (pyStrip ((w.exec "git rev-parse --git-dir").stdout))
                "MERGE_HEAD") <;>
            cases hB : w.fexists (pyJoin (pyStrip ((w.exec "git rev-parse --git-dir").stdout))
                "CHERRY_PICK_HEAD") <;>
            cases hC : w.fexists (pyJoin (pyStrip ((w.exec "git rev-parse --git-dir").stdout))
                "rebase-merge") <;>
            cases hD : w.fexists (pyJoin (pyStrip ((w.exec "git rev-parse --git-dir").stdout))
                "rebase-apply") <;>
            simp [h1, h2, h3, h4, hA, hB, hC, hD]
          · simp [h1, h2, h3, h4]
    · cases hA : w.fexists (pyJoin (pyStrip ((w.exec "git rev-parse --git-dir").stdout))
          "MERGE_HEAD") <;>
      cases hB : w.fexists (pyJoin (pyStrip ((w.exec "git rev-parse --git-dir").stdout))
          "CHERRY_PICK_HEAD") <;>
      cases hC : w.fexists (pyJoin (pyStrip ((w.exec "git rev-parse --git-dir").stdout))
          "rebase-merge") <;>
      cases hD : w.fexists (pyJoin (pyStrip ((w.exec "git rev-parse --git-dir").stdout))
          "rebase-apply") <;>
      simp [h1, h2, hA, hB, hC, hD]

theorem queryEvent_safe (e : Event) (h : queryEvent e) :
    (∀ r : String, e ≠ .cmd ("git commit" ++ r)) ∧
    (∀ r : String, e ≠ .cmd ("git push" ++ r)) ∧
    (∀ r : String, e = .cmd ("git add" ++ r) → e = .cmd "git add .gitattributes") := by
  rcases h with rfl | rfl | rfl | rfl | ⟨f, rfl⟩ | rfl | rfl | ⟨b, rfl⟩ | ⟨b, rfl⟩
  · refine ⟨fun r heq => ?_, fun r heq => ?_, fun r heq => ?_⟩ <;> injection heq with hs
    · exact @str_ne_append "git rev-parse --git-dir" "git commit" r 4 'r' 'c'
        (by decide) (by decide) (by decide) hs
    · exact @str_ne_append "git rev-parse --git-dir" "git push" r 4 'r' 'p'
        (by decide) (by decide) (by decide) hs
    · exact absurd hs (@str_ne_append "git rev-parse --git-dir" "git add" r 4 'r' 'a'
        (by decide) (by decide) (by decide))
  · refine ⟨fun r heq => ?_, fun r heq => ?_, fun r heq => ?_⟩ <;> injection heq with hs
    · exact @str_ne_append "git lfs --version" "git commit" r 4 'l' 'c'
        (by decide) (by decide) (by decide) hs
    · exact @str_ne_append "git lfs --version" "git push" r 4 'l' 'p'
        (by decide) (by decide) (by decide) hs
    · exact absurd hs (@str_ne_append "git lfs --version" "git add" r 4 'l' 'a'
        (by decide) (by decide) (by decide))
  · refine ⟨fun r heq => ?_, fun r heq => ?_, fun r heq => ?_⟩ <;> injection heq with hs
    · exact @str_ne_append "git lfs ls-files -n" "git commit" r 4 'l' 'c'
        (by decide) (by decide) (by decide) hs
    · exact @str_ne_append "git lfs ls-files -n" "git push" r 4 'l' 'p'
        (by decide) (by decide) (by decide) hs
    · exact absurd hs (@str_ne_append "git lfs ls-files -n" "git add" r 4 'l' 'a'
        (by decide) (by decide) (by decide))
  · refine ⟨fun r heq => ?_, fun r heq => ?_, fun r heq => ?_⟩ <;> injection heq with hs
    · exact @str_ne_append "git rev-parse --show-toplevel" "git commit" r 4 'r' 'c'
        (by decide) (by decide) (by decide) hs
    · exact @str_ne_append "git rev-parse --show-toplevel" "git push" r 4 'r' 'p'
        (by decide) (by decide) (by decide) hs
    · exact absurd hs (@str_ne_append "git rev-parse --show-toplevel" "git add" r 4 'r' 'a'
        (by decide) (by decide) (by decide))
  · refine ⟨fun r heq => ?_, fun r heq => ?_, fun r heq => ?_⟩ <;> injection heq with hs <;>
      rw [String.append_assoc] at hs
    · exact @append_ne_append "git lfs untrack '" "git commit" (f ++ "'") r 4 'l' 'c'
        (by decide) (by decide) (by decide) hs
    · exact @append_ne_append "git lfs untrack '" "git push" (f ++ "'") r 4 'l' 'p'
        (by decide) (by decide) (by decide) hs
    · exact absurd hs (@append_ne_append "git lfs untrack '" "git add" (f ++ "'") r 4 'l' 'a'
        (by decide) (by decide) (by decide))
  · refine ⟨fun r heq => ?_, fun r heq => ?_, fun r heq => ?_⟩
    · injection heq with hs
      exact @str_ne_append "git add .gitattributes" "git commit" r 4 'a' 'c'
        (by decide) (by decide) (by decide) hs
    · injection heq with hs
      exact @str_ne_append "git add .gitattributes" "git push" r 4 'a' 'p'
        (by decide) (by decide) (by decide) hs
    · rfl
  · refine ⟨fun r heq => ?_, fun r heq => ?_, fun r heq => ?_⟩ <;> injection heq with hs
    · exact @str_ne_append "git branch --show-current" "git commit" r 4 'b' 'c'
        (by decide) (by decide) (by decide) hs
    · exact @str_ne_append "git branch --show-current" "git push" r 4 'b' 'p'
        (by decide) (by decide) (by decide) hs
    · exact absurd hs (@str_ne_append "git branch --show-current" "git add" r 4 'b' 'a'
        (by decide) (by decide) (by decide))
  · refine ⟨fun r heq => ?_, fun r heq => ?_, fun r heq => ?_⟩ <;> injection heq with hs <;>
      rw [String.append_assoc] at hs
    · exact @append_ne_append "git rev-parse --abbrev-ref " "git commit"
        (b ++ "@\x7bupstream\x7d") r 4 'r' 'c' (by decide) (by decide) (by decide) hs
    · exact @append_ne_append "git rev-parse --abbrev-ref " "git push"
        (b ++ "@\x7bupstream\x7d") r 4 'r' 'p' (by decide) (by decide) (by decide) hs
    · exact absurd hs (@append_ne_append "git rev-parse --abbrev-ref " "git add"
        (b ++ "@\x7bupstream\x7d") r 4 'r' 'a' (by decide) (by decide) (by decide))
  · refine ⟨fun r heq => ?_, fun r heq => ?_, fun r heq => ?_⟩ <;> injection heq with hs <;>
      rw [String.append_assoc, String.append_assoc, String.append_assoc] at hs
    · exact @append_ne_append "git log " "git commit"
        (b ++ ("@\x7bupstream\x7d.." ++ (b ++ " --oneline"))) r 4 'l' 'c'
        (by decide) (by decide) (by decide) hs
    · exact @append_ne_append "git log " "git push"
        (b ++ ("@\x7bupstream\x7d.." ++ (b ++ " --oneline"))) r 4 'l' 'p'
        (by decide) (by decide) (by decide) hs
    · exact absurd hs (@append_ne_append "git log " "git add"
        (b ++ ("@\x7bupstream\x7d.." ++ (b ++ " --oneline"))) r 4 'l' 'a'
        (by decide) (by decide) (by decide))

/-! ## C3 -/

/-- C3 (amended): a run on a dirty working tree without `-d` / `--default` (and
with neither `--force` nor `--tags`) exits with status 1 and issues no
`git commit` and no `git push` command, provided the run is not resuming
unpushed commits (an accepted resume prompt skips the gate — see C4): every
command it runs is a read-only query, an LFS-cleanup command, or the two
status commands of the gate itself; the only staging command it can issue is
the LFS cleanup's `git add .gitattributes`. -/
theorem C3_dirty_tree_aborts (w : World) (args : mypush.Args) (ans : mypush.Answers)
    (hforce : args.force = false) (htags : args.tags = false)
    (hdefault : args.default = false)
    (hdirty : pyStrip ((w.exec "git status --porcelain").stdout) ≠ "")
    (hnores : (mypush.check_interrupted_push ans.resume w).1 ≠ .ok true) :
    (mypush.mainPush args ans w).1 = .error 1 ∧
    ∀ e ∈ (mypush.mainPush args ans w).2,
      (queryEvent e ∨ e = .cmd "git status --porcelain" ∨ e = .cmd "git status -s") ∧
      (∀ r : String, e ≠ .cmd ("git commit" ++ r)) ∧
      (∀ r : String, e ≠ .cmd ("git push" ++ r)) ∧
      (∀ r : String, e = .cmd ("git add" ++ r) → e = .cmd "git add .gitattributes") := by
  have hstatus1 : (∀ r : String, Event.cmd "git status --porcelain" ≠ .cmd ("git commit" ++ r)) ∧
      (∀ r : String, Event.cmd "git status --porcelain" ≠ .cmd ("git push" ++ r)) ∧
      (∀ r : String, Event.cmd "git status --porcelain" = .cmd ("git add" ++ r) →
        Event.cmd "git status --porcelain" = .cmd "git add .gitattributes") := by
    refine ⟨fun r heq => ?_, fun r heq => ?_, fun r heq => ?_⟩ <;> injection heq with hs
    · exact @str_ne_append "git status --porcelain" "git commit" r 4 's' 'c'
        (by decide) (by decide) (by decide) hs
    · exact @str_ne_append "git status --porcelain" "git push" r 4 's' 'p'
        (by decide) (by decide) (by decide) hs
    · exact absurd hs (@str_ne_append "git status --porcelain" "git add" r 4 's' 'a'
        (by decide) (by decide) (by decide))
  have hstatus2 : (∀ r : String, Event.cmd "git status -s" ≠ .cmd ("git commit" ++ r)) ∧
      (∀ r : String, Event.cmd "git status -s" ≠ .cmd ("git push" ++ r)) ∧
      (∀ r : String, Event.cmd "git status -s" = .cmd ("git add" ++ r) →
        Event.cmd "git status -s" = .cmd "git add .gitattributes") := by
    refine ⟨fun r heq => ?_, fun r heq => ?_, fun r heq => ?_⟩ <;> injection heq with hs
    · exact @str_ne_append "git status -s" "git commit" r 4 's' 'c'
        (by decide) (by decide) (by decide) hs
    · exact @str_ne_append "git status -s" "git push" r 4 's' 'p'
        (by decide) (by decide) (by decide) hs
    · exact absurd hs (@str_ne_append "git status -s" "git add" r 4 's' 'a'
        (by decide) (by decide) (by decide))
  suffices hall : (mypush.mainPush args ans w).1 = .error 1 ∧
      ∀ e ∈ (mypush.mainPush args ans w).2,
        (queryEvent e ∨ e = .cmd "git status --porcelain" ∨ e = .cmd "git status -s") by
    refine ⟨hall.1, fun e he => ?_⟩
    rcases hall.2 e he with hq | rfl | rfl
    · exact ⟨Or.inl hq, (queryEvent_safe e hq).1, (queryEvent_safe e hq).2.1,
        (queryEvent_safe e hq).2.2⟩
    · exact ⟨Or.inr (Or.inl rfl), hstatus1.1, hstatus1.2.1, hstatus1.2.2⟩
    · exact ⟨Or.inr (Or.inr rfl), hstatus2.1, hstatus2.2.1, hstatus2.2.2⟩
  rcases check_git_repo_cases w with hgr | hgr
  · obtain ⟨t2, hlfs, hsh2⟩ := check_lfs_spec w
    rcases hcip : mypush.check_interrupted_push ans.resume w with ⟨r3, t3⟩
    have hsh3 : ∀ e ∈ t3, queryEvent e := by
      have := cip_shape w ans.resume
      rw [hcip] at this
      exact this
    have hr3 : r3 = .error 1 ∨ r3 = .ok false := by
      have hc := cip_result_cases w ans.resume
      rw [hcip] at hc
      simp only at hc
      rw [hcip] at hnores
      simp only at hnores
      rcases hc with hc | hc | hc
      · exact Or.inl hc
      · exact absurd hc hnores
      · exact Or.inr hc
    rcases hr3 with rfl | rfl
    · have hmain : mypush.mainPush args ans w =
          (.error 1, .cmd "git rev-parse --git-dir" :: (t2 ++ t3)) := by
        simp [mypush.mainPush, hgr, hlfs, hcip]
      rw [hmain]
      refine ⟨rfl, fun e he => ?_⟩
      rcases List.mem_cons.mp he with rfl | he
      · exact Or.inl (Or.inl rfl)
      · rcases List.mem_append.mp he with he | he
        · exact Or.inl (hsh2 e he)
        · exact Or.inl (hsh3 e he)
    · have hmain : mypush.mainPush args ans w =
          (.error 1, .cmd "git rev-parse --git-dir" ::
            (t2 ++ (t3 ++ [.cmd "git status --porcelain", .cmd "git status -s"]))) := by
        simp [mypush.mainPush, hgr, hlfs, hcip, hforce, htags, hdefault, hdirty, sysExit]
      rw [hmain]
      refine ⟨rfl, fun e he => ?_⟩
      rcases List.mem_cons.mp he with rfl | he
      · exact Or.inl (Or.inl rfl)
      · rcases List.mem_append.mp he with he | he
        · exact Or.inl (hsh2 e he)
        · rcases List.mem_append.mp he with he | he
          · exact Or.inl (hsh3 e he)
          · rcases List.mem_cons.mp he with rfl | he
            · exact Or.inr (Or.inl rfl)
            · rcases List.mem_cons.mp he with rfl | he
              · exact Or.inr (Or.inr rfl)
              · cases he
  · have hmain : mypush.mainPush args ans w = (.error 1, [.cmd "git rev-parse --git-dir"]) := by
      simp [mypush.mainPush, hgr]
    rw [hmain]
    refine ⟨rfl, fun e he => ?_⟩
    rcases List.mem_cons.mp he with rfl | he
    · exact Or.inl (Or.inl rfl)
    · cases he

/-- Counterexample to C3 as stated: in `Wc3` the working tree is dirty and
`-d` is absent (force/tags also absent), yet because the operator accepts the
resume-unpushed-commits prompt the gate is skipped and the run completes
normally (exit 0), contradicting "always exits with nonzero status". -/
theorem C3_counterexample :
    pyStrip ((Wc3.exec "git status --porcelain").stdout) ≠ "" ∧
    (mypush.mainPush ⟨false, true, false, false⟩
      ⟨some "", "x", ⟨none, none, none⟩⟩ Wc3).1 = .ok () := by
  decide

/-- Witness for C3 (amended) at a concrete input: dirty tree, no `-d`, resume
prompt declined with "n" → exit 1. -/
theorem C3_witness :
    ((⟨false, true, false, false⟩ : mypush.Args).force = false ∧
     (⟨false, true, false, false⟩ : mypush.Args).tags = false ∧
     (⟨false, true, false, false⟩ : mypush.Args).default = false ∧
     pyStrip ((Wc3.exec "git status --porcelain").stdout) ≠ "" ∧
     (mypush.check_interrupted_push
       (⟨some "n", "x", ⟨none, none, none⟩⟩ : mypush.Answers).resume Wc3).1 ≠ .ok true) ∧
    (mypush.mainPush ⟨false, true, false, false⟩
      ⟨some "n", "x", ⟨none, none, none⟩⟩ Wc3).1 = .error 1 :=
  ⟨⟨rfl, rfl, rfl, by decide, by decide⟩,
   (C3_dirty_tree_aborts Wc3 ⟨false, true, false, false⟩
     ⟨some "n", "x", ⟨none, none, none⟩⟩ rfl rfl rfl (by decide) (by decide)).1⟩

/-! ## C4 -/

theorem queryEvent_not_status (e : Event) (h : queryEvent e) :
    e ≠ .cmd "git status --porcelain" := by
  rcases h with rfl | rfl | rfl | rfl | ⟨f, rfl⟩ | rfl | rfl | ⟨b, rfl⟩ | ⟨b, rfl⟩ <;>
    intro heq
  · exact absurd heq (by decide)
  · exact absurd heq (by decide)
  · exact absurd heq (by decide)
  · exact absurd heq (by decide)
  · injection heq with hs
    rw [String.append_assoc] at hs
    exact @append_ne_str "git lfs untrack '" "git status --porcelain" (f ++ "'") 4 'l' 's'
      (by decide) (by decide) (by decide) hs
  · exact absurd heq (by decide)
  · exact absurd heq (by decide)
  · injection heq with hs
    rw [String.append_assoc] at hs
    exact @append_ne_str "git rev-parse --abbrev-ref " "git status --porcelain"
      (b ++ "@\x7bupstream\x7d") 4 'r' 's' (by decide) (by decide) (by decide) hs
  · injection heq with hs
    rw [String.append_assoc, String.append_assoc, String.append_assoc] at hs
    exact @append_ne_str "git log " "git status --porcelain"
      (b ++ ("@\x7bupstream\x7d.." ++ (b ++ " --oneline"))) 4 'l' 's'
      (by decide) (by decide) (by decide) hs

theorem handleTrace_no_status (w : World) (b lf : String) :
    ∀ e ∈ mypush.handleTrace w b lf, e ≠ Event.cmd "git status --porcelain" := by
  intro e he
  simp only [mypush.handleTrace, List.mem_cons, List.not_mem_nil, or_false] at he
  rcases he with rfl | rfl | rfl | rfl | rfl | rfl | rfl | rfl <;> intro heq
  · exact absurd heq (by decide)
  · exact absurd heq (by decide)
  · exact absurd heq (by decide)
  · injection heq with hs
    rw [String.append_assoc] at hs
    exact @append_ne_str "git lfs track '" "git status --porcelain" (lf ++ "'") 4 'l' 's'
      (by decide) (by decide) (by decide) hs
  · injection heq with hs
    rw [String.append_assoc] at hs
    exact @append_ne_str "git add .gitattributes '" "git status --porcelain" (lf ++ "'")
      4 'a' 's' (by decide) (by decide) (by decide) hs
  · exact Event.noConfusion heq
  · injection heq with hs
    exact @append_ne_str "git commit -F " "git status --porcelain" w.tmpName 4 'c' 's'
      (by decide) (by decide) (by decide) hs
  · injection heq with hs
    exact @append_ne_str "git push origin " "git status --porcelain" b 4 'p' 's'
      (by decide) (by decide) (by decide) hs

theorem push_branch_full (w : World) (b : String) (ans : mypush.LfsAnswers) :
    ∃ (r : Bool) (t : List Event),
      mypush.push_branch b ans w = (.ok r, .cmd (mypush.pushCmdOf b) :: t) ∧
      (t = [] ∨ ∃ lf, t = mypush.handleTrace w (pyRemovesuffix b ":new") lf) := by
  cases hnew : pyEndswith b ":new" with
  | true =>
    by_cases h0 : (w.ptyExec ("git push -u origin " ++ pyRemovesuffix b ":new")).1 = 0
    · exact ⟨true, [], by simp [mypush.push_branch, mypush.pushCmdOf, hnew, h0], Or.inl rfl⟩
    · by_cases hgh : strContains
          ((w.ptyExec ("git push -u origin " ++ pyRemovesuffix b ":new")).2 ++
           (w.ptyExec ("git push -u origin " ++ pyRemovesuffix b ":new")).2)
          "GH001: Large files detected" = true
      · rcases handle_main w (pyRemovesuffix b ":new")
            ((w.ptyExec ("git push -u origin " ++ pyRemovesuffix b ":new")).2 ++
             (w.ptyExec ("git push -u origin " ++ pyRemovesuffix b ":new")).2) ans with
          hh | ⟨lf, _, _, hh⟩
        · exact ⟨false, [],
            by simp [mypush.push_branch, mypush.pushCmdOf, hnew, h0, hgh, hh], Or.inl rfl⟩
        · refine ⟨if (w.ptyExec ("git push origin " ++ pyRemovesuffix b ":new")).1 = 0
              then true else false,
            mypush.handleTrace w (pyRemovesuffix b ":new") lf, ?_, Or.inr ⟨lf, rfl⟩⟩
          by_cases hrc : (w.ptyExec ("git push origin " ++ pyRemovesuffix b ":new")).1 = 0 <;>
            simp [mypush.push_branch, mypush.pushCmdOf, hnew, h0, hgh, hh, hrc]
      · exact ⟨false, [],
          by simp [mypush.push_branch, mypush.pushCmdOf, hnew, h0, hgh], Or.inl rfl⟩
  | false =>
    by_cases h0 : (w.ptyExec ("git push origin " ++ pyRemovesuffix b ":new")).1 = 0
    · exact ⟨true, [], by simp [mypush.push_branch, mypush.pushCmdOf, hnew, h0], Or.inl rfl⟩
    · by_cases hgh : strContains
          ((w.ptyExec ("git push origin " ++ pyRemovesuffix b ":new")).2 ++
           (w.ptyExec ("git push origin " ++ pyRemovesuffix b ":new")).2)
          "GH001: Large files detected" = true
      · rcases handle_main w (pyRemovesuffix b ":new")
            ((w.ptyExec ("git push origin " ++ pyRemovesuffix b ":new")).2 ++
             (w.ptyExec ("git push origin " ++ pyRemovesuffix b ":new")).2) ans with
          hh | ⟨lf, _, _, hh⟩
        · exact ⟨false, [],
            by simp [mypush.push_branch, mypush.pushCmdOf, hnew, h0, hgh, hh], Or.inl rfl⟩
        · refine ⟨if (w.ptyExec ("git push origin " ++ pyRemovesuffix b ":new")).1 = 0
              then true else false,
            mypush.handleTrace w (pyRemovesuffix b ":new") lf, ?_, Or.inr ⟨lf, rfl⟩⟩
          simp [mypush.push_branch, mypush.pushCmdOf, hnew, h0, hgh, hh]
      · exact ⟨false, [],
          by simp [mypush.push_branch, mypush.pushCmdOf, hnew, h0, hgh], Or.inl rfl⟩

theorem pushCmdOf_not_status (b : String) :
    Event.cmd (mypush.pushCmdOf b) ≠ Event.cmd "git status --porcelain" := by
  intro heq
  injection heq with hs
  unfold mypush.pushCmdOf at hs
  cases hnew : pyEndswith b ":new" with
  | true =>
    rw [hnew, if_pos rfl] at hs
    exact @append_ne_str "git push -u origin " "git status --porcelain"
      (pyRemovesuffix b ":new") 4 'p' 's' (by decide) (by decide) (by decide) hs
  | false =>
    rw [hnew] at hs
    simp only [Bool.false_eq_true, if_false] at hs
    exact @append_ne_str "git push origin " "git status --porcelain"
      (pyRemovesuffix b ":new") 4 'p' 's' (by decide) (by decide) (by decide) hs

theorem selectEvent_not_status (e : Event) (h : selectEvent e) :
    e ≠ .cmd "git status --porcelain" := by
  rcases h with rfl | ⟨b, rfl⟩ | ⟨b, rfl⟩ <;> intro heq
  · exact absurd heq (by decide)
  · injection heq with hs
    rw [String.append_assoc] at hs
    exact @append_ne_str "git rev-parse --abbrev-ref " "git status --porcelain"
      (b ++ "@\x7bupstream\x7d") 4 'r' 's' (by decide) (by decide) (by decide) hs
  · injection heq with hs
    exact @append_ne_str "git rev-parse " "git status --porcelain" b 4 'r' 's'
      (by decide) (by decide) (by decide) hs

theorem branchesLoop_shape (l : List String) (w : World) :
    ∀ e ∈ (mypush.branchesLoop l w).2, selectEvent e := by
  induction l with
  | nil => intro e he; cases he
  | cons b rest ih =>
    rcases hr : mypush.branchesLoop rest w with ⟨r, t⟩
    rw [hr] at ih
    simp only at ih
    have hrv := branchesLoop_spec rest w
    rw [hr] at hrv
    simp only at hrv
    subst hrv
    intro e he
    by_cases hb : b = ""
    · rw [show (mypush.branchesLoop (b :: rest) w).2 = t by
        simp [mypush.branchesLoop, hb, hr]] at he
      exact ih e he
    · by_cases hup : (w.exec ("git rev-parse --abbrev-ref " ++ b ++
          "@\x7bupstream\x7d")).returncode = 0
      · by_cases heq : pyStrip ((w.exec ("git rev-parse " ++ b)).stdout) =
            pyStrip ((w.exec ("git rev-parse " ++ b ++ "@\x7bupstream\x7d")).stdout)
        · rw [show (mypush.branchesLoop (b :: rest) w).2 =
              .cmd ("git rev-parse --abbrev-ref " ++ b ++ "@\x7bupstream\x7d") ::
              .cmd ("git rev-parse " ++ b) ::
              .cmd ("git rev-parse " ++ b ++ "@\x7bupstream\x7d") :: t by
            simp [mypush.branchesLoop, hb, hup, heq, hr]] at he
          rcases List.mem_cons.mp he with rfl | he
          · exact Or.inr (Or.inl ⟨b, rfl⟩)
          · rcases List.mem_cons.mp he with rfl | he
            · exact Or.inr (Or.inr ⟨b, rfl⟩)
            · rcases List.mem_cons.mp he with rfl | he
              · exact Or.inr (Or.inr ⟨b ++ "@\x7bupstream\x7d", by rw [String.append_assoc]⟩)
              · exact ih e he
        · rw [show (mypush.branchesLoop (b :: rest) w).2 =
              .cmd ("git rev-parse --abbrev-ref " ++ b ++ "@\x7bupstream\x7d") ::
              .cmd ("git rev-parse " ++ b) ::
              .cmd ("git rev-parse " ++ b ++ "@\x7bupstream\x7d") :: t by
            simp [mypush.branchesLoop, hb, hup, heq, hr]] at he
          rcases List.mem_cons.mp he with rfl | he
          · exact Or.inr (Or.inl ⟨b, rfl⟩)
          · rcases List.mem_cons.mp he with rfl | he
            · exact Or.inr (Or.inr ⟨b, rfl⟩)
            · rcases List.mem_cons.mp he with rfl | he
              · exact Or.inr (Or.inr ⟨b ++ "@\x7bupstream\x7d", by rw [String.append_assoc]⟩)
              · exact ih e he
      · rw [show (mypush.branchesLoop (b :: rest) w).2 =
            .cmd ("git rev-parse --abbrev-ref " ++ b ++ "@\x7bupstream\x7d") :: t by
          simp [mypush.branchesLoop, hb, hup, hr]] at he
        rcases List.mem_cons.mp he with rfl | he
        · exact Or.inr (Or.inl ⟨b, rfl⟩)
        · exact ih e he

theorem pushLoop_spec (w : World) (ans : mypush.LfsAnswers) (l : List String) :
    ∃ t, mypush.pushLoop ans l w = (.ok (), t) ∧
      (∀ br ∈ l, Event.cmd (mypush.pushCmdOf br) ∈ t) ∧
      (∀ e ∈ t, e ≠ Event.cmd "git status --porcelain") := by
  induction l with
  | nil => exact ⟨[], rfl, by simp, by simp⟩
  | cons b rest ih =>
    obtain ⟨t, hres, hmem, hnost⟩ := ih
    obtain ⟨r, t1, hpb, ht1⟩ := push_branch_full w b ans
    refine ⟨(.cmd (mypush.pushCmdOf b) :: t1) ++ t, ?_, ?_, ?_⟩
    · simp [mypush.pushLoop, hpb, hres]
    · intro br hbr
      rcases List.mem_cons.mp hbr with rfl | hbr
      · exact List.mem_append.mpr (Or.inl (List.mem_cons_self _ _))
      · exact List.mem_append.mpr (Or.inr (hmem br hbr))
    · intro e he
      rcases List.mem_append.mp he with he | he
      · rcases List.mem_cons.mp he with rfl | he
        · exact pushCmdOf_not_status b
        · rcases ht1 with rfl | ⟨lf, rfl⟩
          · cases he
          · exact handleTrace_no_status w (pyRemovesuffix b ":new") lf e he
      · exact hnost e he

theorem push_all_spec (w : World) (ans : mypush.LfsAnswers) :
    ∃ t, mypush.push_all_branches ans w = (.ok (), t) ∧
      Event.cmd "git for-each-ref --format='%(refname:short)' refs/heads/" ∈ t ∧
      (∀ br ∈ (pySplitNl (pyStrip
          ((w.exec "git for-each-ref --format='%(refname:short)' refs/heads/").stdout))).filterMap
          (branchPushClass w),
        Event.cmd (mypush.pushCmdOf br) ∈ t) ∧
      (∀ e ∈ t, e ≠ Event.cmd "git status --porcelain") := by
  rcases hbl : mypush.branchesLoop (pySplitNl (pyStrip
      ((w.exec "git for-each-ref --format='%(refname:short)' refs/heads/").stdout))) w
    with ⟨r, tB⟩
  have hres := branchesLoop_spec (pySplitNl (pyStrip
      ((w.exec "git for-each-ref --format='%(refname:short)' refs/heads/").stdout))) w
  rw [hbl] at hres
  simp only at hres
  subst hres
  have hshape := branchesLoop_shape (pySplitNl (pyStrip
      ((w.exec "git for-each-ref --format='%(refname:short)' refs/heads/").stdout))) w
  rw [hbl] at hshape
  simp only at hshape
  by_cases hB : (pySplitNl (pyStrip
      ((w.exec "git for-each-ref --format='%(refname:short)' refs/heads/").stdout))).filterMap
      (branchPushClass w) = []
  · refine ⟨.cmd "git for-each-ref --format='%(refname:short)' refs/heads/" :: tB,
      ?_, List.mem_cons_self _ _, ?_, ?_⟩
    · simp [mypush.push_all_branches, mypush.get_branches_to_push, hbl, hB]
    · intro br hbr
      rw [hB] at hbr
      cases hbr
    · intro e he
      rcases List.mem_cons.mp he with rfl | he
      · exact (by decide : Event.cmd "git for-each-ref --format='%(refname:short)' refs/heads/" ≠
          Event.cmd "git status --porcelain")
      · exact selectEvent_not_status e (hshape e he)
  · obtain ⟨tP, hPL, hPmem, hPno⟩ := pushLoop_spec w ans ((pySplitNl (pyStrip
        ((w.exec "git for-each-ref --format='%(refname:short)' refs/heads/").stdout))).filterMap
        (branchPushClass w))
    refine ⟨.cmd "git for-each-ref --format='%(refname:short)' refs/heads/" :: (tB ++ tP),
      ?_, List.mem_cons_self _ _, ?_, ?_⟩
    · simp [mypush.push_all_branches, mypush.get_branches_to_push, hbl, hB, hPL]
    · intro br hbr
      exact List.mem_cons.mpr (Or.inr (List.mem_append.mpr (Or.inr (hPmem br hbr))))
    · intro e he
      rcases List.mem_cons.mp he with rfl | he
      · exact (by decide : Event.cmd "git for-each-ref --format='%(refname:short)' refs/heads/" ≠
          Event.cmd "git status --porcelain")
      · rcases List.mem_append.mp he with he | he
        · exact selectEvent_not_status e (hshape e he)
        · exact hPno e he

/-- C4: when the current branch has an upstream with unpushed commits and the
operator accepts the resume prompt, the uncommitted-changes gate is skipped
entirely for that run: even with a dirty working tree and no `-d` flag,
`main` completes normally (exit 0) and never even runs `git status
--porcelain`; it proceeds to push — with `-c` / `--current` the current branch
is pushed, and without it (the default invocation) the local branches are
enumerated and every branch selected by `get_branches_to_push` is pushed. -/
theorem C4_resume_skips_dirty_gate (w : World) (args : mypush.Args) (ans : mypush.Answers)
    (cur : String)
    (hforce : args.force = false) (htags : args.tags = false)
    (_hdefault : args.default = false)
    (_hdirty : pyStrip ((w.exec "git status --porcelain").stdout) ≠ "")
    (hrepo : (w.exec "git rev-parse --git-dir").returncode = 0)
    (hcb : pyStrip ((w.exec "git branch --show-current").stdout) = cur)
    (hcbne : cur ≠ "")
    (hup : (w.exec ("git rev-parse --abbrev-ref " ++ cur ++ "@\x7bupstream\x7d")).returncode = 0)
    (hunp : pyStrip ((w.exec ("git log " ++ cur ++ "@\x7bupstream\x7d.." ++ cur ++
      " --oneline")).stdout) ≠ "")
    (hs : ∃ s, ans.resume = some s ∧ pyStrip (pyLower s) ≠ "n") :
    (mypush.mainPush args ans w).1 = .ok () ∧
    Event.cmd "git status --porcelain" ∉ (mypush.mainPush args ans w).2 ∧
    (args.current = true →
      Event.cmd (mypush.pushCmdOf cur) ∈ (mypush.mainPush args ans w).2) ∧
    (args.current = false →
      Event.cmd "git for-each-ref --format='%(refname:short)' refs/heads/" ∈
        (mypush.mainPush args ans w).2 ∧
      ∀ br ∈ (pySplitNl (pyStrip
          ((w.exec "git for-each-ref --format='%(refname:short)' refs/heads/").stdout))).filterMap
          (branchPushClass w),
        Event.cmd (mypush.pushCmdOf br) ∈ (mypush.mainPush args ans w).2) := by
  have hgr : mypush.check_git_repo w = (.ok (), [.cmd "git rev-parse --git-dir"]) := by
    simp [mypush.check_git_repo, hrepo]
  obtain ⟨t2, hlfs, hsh2⟩ := check_lfs_spec w
  have hcip : mypush.check_interrupted_push ans.resume w =
      (.ok true, [.cmd "git rev-parse --git-dir", .cmd "git branch --show-current",
        .cmd ("git rev-parse --abbrev-ref " ++ cur ++ "@\x7bupstream\x7d"),
        .cmd ("git log " ++ cur ++ "@\x7bupstream\x7d.." ++ cur ++ " --oneline")]) := by
    rcases hs with ⟨s, hres, hacc⟩
    rw [hres, cip_full w (some s)]
    simp [hcb, hcbne, hup, hunp, hacc]
  have hgcb : mypush.get_current_branch w = (.ok cur, [.cmd "git branch --show-current"]) := by
    simp [mypush.get_current_branch, hcb]
  cases hcur : args.current with
  | true =>
    obtain ⟨r4, t5, hpb, ht5⟩ := push_branch_full w cur ans.lfs
    have hmain : mypush.mainPush args ans w =
        (.ok (), .cmd "git rev-parse --git-dir" ::
          (t2 ++ ([.cmd "git rev-parse --git-dir", .cmd "git branch --show-current",
            .cmd ("git rev-parse --abbrev-ref " ++ cur ++ "@\x7bupstream\x7d"),
            .cmd ("git log " ++ cur ++ "@\x7bupstream\x7d.." ++ cur ++ " --oneline")] ++
            (.cmd "git branch --show-current" ::
              (.cmd (mypush.pushCmdOf cur) :: t5))))) := by
      simp [mypush.mainPush, hgr, hlfs, hcip, hforce, htags, hcur, hgcb, hpb]
    rw [hmain]
    refine ⟨rfl, ?_, fun _ => by simp, fun hfalse => absurd hfalse (by decide)⟩
    intro hmem
    rcases List.mem_cons.mp hmem with heq | hmem
    · exact absurd heq.symm (by decide)
    · rcases List.mem_append.mp hmem with hmem | hmem
      · exact queryEvent_not_status _ (hsh2 _ hmem) rfl
      · rcases List.mem_append.mp hmem with hmem | hmem
        · have hq : queryEvent (Event.cmd "git status --porcelain") := by
            have := cip_shape w ans.resume
            rw [hcip] at this
            exact this _ hmem
          exact queryEvent_not_status _ hq rfl
        · rcases List.mem_cons.mp hmem with heq | hmem
          · exact absurd heq.symm (by decide)
          · rcases List.mem_cons.mp hmem with heq | hmem
            · exact pushCmdOf_not_status cur heq.symm
            · rcases ht5 with rfl | ⟨lf, rfl⟩
              · cases hmem
              · exact handleTrace_no_status w (pyRemovesuffix cur ":new") lf _ hmem rfl
  | false =>
    obtain ⟨tP, hPA, hfer, hPmem, hPno⟩ := push_all_spec w ans.lfs
    have hmain : mypush.mainPush args ans w =
        (.ok (), .cmd "git rev-parse --git-dir" ::
          (t2 ++ ([.cmd "git rev-parse --git-dir", .cmd "git branch --show-current",
            .cmd ("git rev-parse --abbrev-ref " ++ cur ++ "@\x7bupstream\x7d"),
            .cmd ("git log " ++ cur ++ "@\x7bupstream\x7d.." ++ cur ++ " --oneline")] ++ tP))) := by
      simp [mypush.mainPush, hgr, hlfs, hcip, hforce, htags, hcur, hPA]
    rw [hmain]
    refine ⟨rfl, ?_, fun htrue => absurd htrue (by decide), fun _ => ⟨?_, ?_⟩⟩
    · intro hmem
      rcases List.mem_cons.mp hmem with heq | hmem
      · exact absurd heq.symm (by decide)
      · rcases List.mem_append.mp hmem with hmem | hmem
        · exact queryEvent_not_status _ (hsh2 _ hmem) rfl
        · rcases List.mem_append.mp hmem with hmem | hmem
          · have hq : queryEvent (Event.cmd "git status --porcelain") := by
              have := cip_shape w ans.resume
              rw [hcip] at this
              exact this _ hmem
            exact queryEvent_not_status _ hq rfl
          · exact hPno _ hmem rfl
    · exact List.mem_cons.mpr (Or.inr (List.mem_append.mpr (Or.inr
        (List.mem_append.mpr (Or.inr hfer)))))
    · intro br hbr
      exact List.mem_cons.mpr (Or.inr (List.mem_append.mpr (Or.inr
        (List.mem_append.mpr (Or.inr (hPmem br hbr))))))

/-- Witness for C4 at a concrete input: dirty tree, no `-d`, no `-c` (the
default invocation), resume prompt answered with the empty string (acceptance)
→ the run never checks the tree status, enumerates the local branches, pushes
the selected branch `main`, and exits 0. -/
theorem C4_witness :
    (pyStrip ((Wc3.exec "git status --porcelain").stdout) ≠ "" ∧
     (⟨false, false, false, false⟩ : mypush.Args).default = false ∧
     (⟨false, false, false, false⟩ : mypush.Args).current = false ∧
     (∃ s, (⟨some "", "x", ⟨none, none, none⟩⟩ : mypush.Answers).resume = some s ∧
       pyStrip (pyLower s) ≠ "n")) ∧
    ((mypush.mainPush ⟨false, false, false, false⟩
        ⟨some "", "x", ⟨none, none, none⟩⟩ Wc3).1 = .ok () ∧
     Event.cmd "git status --porcelain" ∉
       (mypush.mainPush ⟨false, false, false, false⟩
         ⟨some "", "x", ⟨none, none, none⟩⟩ Wc3).2 ∧
     Event.cmd "git for-each-ref --format='%(refname:short)' refs/heads/" ∈
       (mypush.mainPush ⟨false, false, false, false⟩
         ⟨some "", "x", ⟨none, none, none⟩⟩ Wc3).2 ∧
     Event.cmd (mypush.pushCmdOf "main") ∈
       (mypush.mainPush ⟨false, false, false, false⟩
         ⟨some "", "x", ⟨none, none, none⟩⟩ Wc3).2) := by
  have h := C4_resume_skips_dirty_gate Wc3 ⟨false, false, false, false⟩
    ⟨some "", "x", ⟨none, none, none⟩⟩ "main" rfl rfl rfl (by decide) (by decide)
    (by decide) (by decide) (by decide) (by decide) ⟨"", rfl, by decide⟩
  exact ⟨⟨by decide, rfl, rfl, ⟨"", rfl, by decide⟩⟩,
    h.1, h.2.1, (h.2.2.2 rfl).1, (h.2.2.2 rfl).2 "main" (by decide)⟩
